import Mathlib

/-!
Verification development for the assessment attempt and submission engine of
the candidate-hire backend (`backend/app/routers/tests.py` and
`backend/app/routers/standalone_assessments.py`).

The Python routers are shallowly embedded as pure Lean functions over an
explicit relational `Store` (the two tables `test_attempts` and `user_answers`
plus the read-mostly test/question catalog).  Each endpoint becomes a function
`Store → result × Store`; database commits are the returned store, raised
`HTTPException`s become `Except` errors.  Floats are modelled as `ℚ`,
timestamps as `Int` seconds, SQL `NULL` as `Option`.
-/

deriving instance DecidableEq for Except

namespace AttemptEngine

/-- One entry of a question's JSON `options` blob.  The Python code guards
every access with `isinstance(opt, dict)` and uses `opt.get('id')` /
`opt.get('text')`, so an entry is either a dict with optional `id`/`text`
keys or some other JSON value (`nonDict`). -/
inductive OptBlob where
  | dict (id : Option String) (text : Option String)
  | nonDict
deriving DecidableEq

/-- `opt.get('id') == v` for a truthy string `v` (non-dicts never match). -/
def idMatch (b : OptBlob) (v : String) : Bool :=
  match b with
  | .dict i _ => i = some v
  | .nonDict => false

/-- `opt.get('text') == v` for a truthy string `v`. -/
def textMatch (b : OptBlob) (v : String) : Bool :=
  match b with
  | .dict _ t => t = some v
  | .nonDict => false

/-- `opt.get('id', default)`. -/
def blobIdOr (b : OptBlob) (d : Option String) : Option String :=
  match b with
  | .dict i _ => match i with | some x => some x | none => d
  | .nonDict => d

/-- `opt.get('text', default)` where the default is a plain string. -/
def blobTextOr (b : OptBlob) (d : String) : String :=
  match b with
  | .dict _ t => t.getD d
  | .nonDict => d

/-- Python truthiness of an optional string: `None` and `""` are falsy. -/
def strFalsy : Option String → Bool
  | none => true
  | some s => s = ""

/-- `normalize_to_option_id(options, text_or_id)` from `tests.py` (defined
identically inside `bulk_save_answers` and `submit_answer`): if the value is
already some option's id return it; else if it equals some option's text
return that option's id; else return it unchanged.  Empty options or a falsy
value short-circuit to the value itself. -/
def normalize_to_option_id (options : List OptBlob) (text_or_id : Option String) :
    Option String :=
  if options.isEmpty || strFalsy text_or_id then text_or_id
  else
    match text_or_id with
    | none => none
    | some v =>
      if options.any (fun o => idMatch o v) then some v
      else
        match options.find? (fun o => textMatch o v) with
        | some o => blobIdOr o (some v)
        | none => some v

/-- `get_option_id(options, text_or_id)` from `submit_assessment` in
`standalone_assessments.py`; same lookup as `normalize_to_option_id` but it
always returns a plain string (`str(...)`, falsy values become `""`). -/
def get_option_id (options : List OptBlob) (text_or_id : Option String) : String :=
  if options.isEmpty || strFalsy text_or_id then text_or_id.getD ""
  else
    match text_or_id with
    | none => ""
    | some v =>
      if options.any (fun o => idMatch o v) then v
      else
        match options.find? (fun o => textMatch o v) with
        | some o => (blobIdOr o (some v)).getD v
        | none => v

/-- `get_option_text(options, option_id)` helper of `complete_test`
(display conversion of a stored option id back to its text). -/
def get_option_text (options : List OptBlob) (option_id : Option String) :
    Option String :=
  if options.isEmpty || strFalsy option_id then option_id
  else
    match option_id with
    | none => none
    | some v =>
      match options.find? (fun o => idMatch o v) with
      | some o => some (blobTextOr o v)
      | none => some v

/-- `get_option_text(options, option_id)` variant of `submit_assessment`
(returns a plain string, falsy values become `""`). -/
def get_option_text_s (options : List OptBlob) (option_id : Option String) : String :=
  if options.isEmpty || strFalsy option_id then option_id.getD ""
  else
    match option_id with
    | none => ""
    | some v =>
      match options.find? (fun o => idMatch o v) with
      | some o => blobTextOr o v
      | none => v

/-! ## Data model (`backend/app/models/test.py`) -/

/-- `TestAttempt.status` string column; code compares against the literals
`"in_progress"` and `"completed"`. -/
inductive AttemptStatus where
  | in_progress
  | completed
  | abandoned
deriving DecidableEq

/-- `Question` row (test-engine catalog).  `annotation_data`, media and
passage columns are omitted: no completion/scoring path reads them. -/
structure Question where
  id : Nat
  question_type : String
  question_text : String
  options : List OptBlob
  correct_answer : Option String
  marks : ℚ
  html_content : Option String
  is_active : Bool
deriving DecidableEq

/-- `Test` row (the configuration the attempt paths read). -/
structure Test where
  id : Nat
  title : String
  duration_minutes : Nat
  total_marks : ℚ
  passing_marks : ℚ
  mcq_count : Nat
  text_annotation_count : Nat
  image_annotation_count : Nat
  video_annotation_count : Nat
  agent_analysis_count : Nat
  is_active : Bool
  is_published : Bool
deriving DecidableEq

/-- `TestQuestion` junction row linking a test to a question with an order. -/
structure TestLink where
  test_id : Nat
  question_id : Nat
  order : Nat
deriving DecidableEq

/-- `TestAttempt` row. -/
structure TestAttempt where
  id : Nat
  user_id : Nat
  test_id : Nat
  status : AttemptStatus
  current_question : Nat
  score : ℚ
  total_marks : ℚ
  percentage : ℚ
  passed : Bool
  tab_switches : Nat
  fullscreen_exits : Nat
  is_flagged : Bool
  flag_reason : Option String
  started_at : Option Int
  completed_at : Option Int
  time_taken_seconds : Option Int
deriving DecidableEq

/-- `UserAnswer` row (the `annotation_data` JSON column is omitted: scoring
never reads it). -/
structure UserAnswer where
  attempt_id : Nat
  question_id : Nat
  answer_text : Option String
  is_correct : Option Bool
  marks_obtained : Option ℚ
  time_spent_seconds : Option Int
  answered_at : Option Int
deriving DecidableEq

/-! ## Standalone assessment catalog (`standalone_assessments.py`) -/

/-- Question of a standalone assessment section. -/
structure AQuestion where
  id : Nat
  section_id : Nat
  question_number : Option String
  question_text : Option String
  options : List OptBlob
  correct_answer : Option String
  marks : ℚ
deriving DecidableEq

/-- Section of a standalone assessment. -/
structure ASection where
  id : Nat
  title : String
  questions : List AQuestion
deriving DecidableEq

/-- Standalone assessment (a `Test` row with `assessment_type =
"standalone_assessment"` and eagerly loaded sections). -/
structure Assessment where
  id : Nat
  title : Option String
  category : Option String
  total_marks : ℚ
  passing_marks : ℚ
  max_tab_switches_allowed : Nat
  sections : List ASection
deriving DecidableEq

/-! ## The relational store -/

/-- The relational state all endpoints coordinate through: the two mutable
tables (`attempts`, `answers`) plus the read-mostly catalog.
`nextAttemptId` models the autoincrement sequence of `test_attempts.id`. -/
structure Store where
  tests : List Test
  questions : List Question
  links : List TestLink
  assessments : List Assessment
  attempts : List TestAttempt
  answers : List UserAnswer
  nextAttemptId : Nat
deriving DecidableEq

/-- Primary-key lookup of a test. -/
def findTest (s : Store) (tid : Nat) : Option Test :=
  s.tests.find? (fun t => decide (t.id = tid))

/-- Primary-key lookup of a question. -/
def findQuestion (s : Store) (qid : Nat) : Option Question :=
  s.questions.find? (fun q => decide (q.id = qid))

/-- `select(TestAttempt).where(id == aid)` (primary key). -/
def findAttemptById (s : Store) (aid : Nat) : Option TestAttempt :=
  s.attempts.find? (fun a => decide (a.id = aid))

/-- `select(TestAttempt).where(id == aid, user_id == uid)`. -/
def findAttempt (s : Store) (aid uid : Nat) : Option TestAttempt :=
  s.attempts.find? (fun a => decide (a.id = aid ∧ a.user_id = uid))

/-- `select(UserAnswer).where(attempt_id == aid)` in table row order. -/
def answersFor (s : Store) (aid : Nat) : List UserAnswer :=
  s.answers.filter (fun a => decide (a.attempt_id = aid))

/-- `sum(a.marks_obtained or 0 for a in answers)`. -/
def sumMarks (l : List UserAnswer) : ℚ :=
  (l.map (fun a => a.marks_obtained.getD 0)).sum

/-- Commit of a mutated `TestAttempt` ORM object: the row with that primary
key is replaced. -/
def updateAttempt (s : Store) (a : TestAttempt) : Store :=
  { s with attempts := s.attempts.map (fun b => if b.id = a.id then a else b) }

/-- Python `x or y` on numbers (`None`/`0` are falsy; `NULL` is modelled
as `0` for the non-nullable numeric columns). -/
def pyOrQ (a b : ℚ) : ℚ :=
  if a = 0 then b else a

/-! ## `complete_test` (normal completion path, `tests.py`) -/

/-- Body of `CompleteTestRequest` as read by `complete_test` (only
`tab_switches` is used). -/
structure CompleteTestRequest where
  tab_switches : Option Nat
deriving DecidableEq

/-- One entry of the per-question result breakdown built by `complete_test`. -/
structure AnswerDetail where
  question_id : Nat
  question_text : String
  user_answer : Option String
  correct_answer : Option String
  is_correct : Option Bool
  marks_obtained : Option ℚ
  max_marks : ℚ
deriving DecidableEq

/-- `TestResultResponse` as populated by `complete_test`. -/
structure TestResultResponse where
  attempt_id : Nat
  test_id : Nat
  score : ℚ
  total_marks : ℚ
  percentage : ℚ
  passed : Bool
  time_taken_seconds : Int
  completed_at : Option Int
  answers : List AnswerDetail
deriving DecidableEq

/-- One breakdown entry: both branches of `complete_test` look the answer's
question up in `questions_map` and fall back to blanks when it is unknown. -/
def answerDetail (s : Store) (a : UserAnswer) : AnswerDetail :=
  match findQuestion s a.question_id with
  | some q =>
    { question_id := a.question_id
      question_text := q.question_text
      user_answer := get_option_text q.options a.answer_text
      correct_answer := get_option_text q.options q.correct_answer
      is_correct := a.is_correct
      marks_obtained := a.marks_obtained
      max_marks := q.marks }
  | none =>
    { question_id := a.question_id
      question_text := ""
      user_answer := a.answer_text
      correct_answer := none
      is_correct := a.is_correct
      marks_obtained := a.marks_obtained
      max_marks := 0 }

/-- `if data and data.tab_switches:` block at the top of the completing
branch of `complete_test`. -/
def applyTabSwitches (att : TestAttempt) (d : Option CompleteTestRequest) :
    TestAttempt :=
  match d with
  | none => att
  | some r =>
    match r.tab_switches with
    | none => att
    | some n =>
      if n = 0 then att
      else
        let ts := max att.tab_switches n
        let att1 := { att with tab_switches := ts }
        if 3 ≤ ts then
          { att1 with
            is_flagged := true
            flag_reason := some ("Multiple tab switches: " ++ toString ts) }
        else att1

/-- Error results of `complete_test` (`HTTPException 404`; the retry loop
around the commit is collapsed since the pure store never fails). -/
inductive CompleteErr where
  | attemptNotFound
deriving DecidableEq

/-- The already-completed branch of `complete_test`: the response rebuilt
purely from the stored attempt row and stored answer rows. -/
def storedResult (s : Store) (aid : Nat) (att : TestAttempt) : TestResultResponse :=
  { attempt_id := att.id
    test_id := att.test_id
    score := pyOrQ att.score 0
    total_marks := pyOrQ att.total_marks
      (match findTest s att.test_id with | some t => t.total_marks | none => 0)
    percentage := pyOrQ att.percentage 0
    passed := att.passed
    time_taken_seconds := att.time_taken_seconds.getD 0
    completed_at := att.completed_at
    answers := (answersFor s aid).map (answerDetail s) }

/-- `complete_test(attempt_id)` from `tests.py`: if the attempt is already
completed, rebuild the response from the stored row; otherwise sum the cached
`marks_obtained` of the saved answers, write the completion columns and return
the result. -/
def complete_test (aid uid : Nat) (d : Option CompleteTestRequest) (now : Int)
    (s : Store) : Except CompleteErr TestResultResponse × Store :=
  match findAttempt s aid uid with
  | none => (.error .attemptNotFound, s)
  | some att =>
    if att.status = .completed then
      (.ok (storedResult s aid att), s)
    else
      let att1 := applyTabSwitches att d
      let test := findTest s att.test_id
      let answers := answersFor s aid
      let total_score := sumMarks answers
      let total_marks := pyOrQ att1.total_marks
        (match test with | some t => t.total_marks | none => 0)
      let percentage := if 0 < total_marks then total_score / total_marks * 100 else 0
      let passed := decide (50 ≤ percentage)
      let time_taken : Option Int :=
        match att1.started_at with
        | some t0 => some (now - t0)
        | none => att1.time_taken_seconds
      let att2 := { att1 with
        status := .completed
        score := total_score
        percentage := percentage
        passed := passed
        completed_at := some now
        time_taken_seconds := time_taken }
      (.ok { attempt_id := att2.id
             test_id := att2.test_id
             score := pyOrQ att2.score 0
             total_marks := pyOrQ total_marks 0
             percentage := pyOrQ att2.percentage 0
             passed := att2.passed
             time_taken_seconds := att2.time_taken_seconds.getD 0
             completed_at := att2.completed_at
             answers := answers.map (answerDetail s) }, updateAttempt s att2)

/-! ## `emergency_submit_test` (emergency completion path, `tests.py`) -/

/-- JSON results of `emergency_submit_test` (it never raises; the 5-round
retry loop is collapsed since the pure store never fails). -/
inductive EmergencyResult where
  | notFound
  | alreadyCompleted (score percentage : ℚ)
  | submitted (attempt_id : Nat) (score total_marks percentage : ℚ)
      (passed : Bool) (answers_saved : Nat)
deriving DecidableEq

/-- `emergency_submit_test(attempt_id)`: minimal-validation completion that
scores from whatever cached `marks_obtained` exist and always drives the
attempt to `completed`. -/
def emergency_submit_test (aid : Nat) (now : Int) (s : Store) :
    EmergencyResult × Store :=
  match findAttemptById s aid with
  | none => (.notFound, s)
  | some att =>
    if att.status = .completed then
      (.alreadyCompleted att.score att.percentage, s)
    else
      let test := findTest s att.test_id
      let answers := answersFor s aid
      let total_score := sumMarks answers
      let total_marks := pyOrQ att.total_marks
        (match test with | some t => t.total_marks | none => 100)
      let percentage := if 0 < total_marks then total_score / total_marks * 100 else 0
      let att2 := { att with
        status := .completed
        score := total_score
        percentage := percentage
        passed := decide (50 ≤ percentage)
        completed_at := some now
        time_taken_seconds :=
          match att.started_at with
          | some t0 => some (now - t0)
          | none => att.time_taken_seconds }
      (.submitted att.id total_score total_marks percentage (decide (50 ≤ percentage))
        answers.length, updateAttempt s att2)

/-! ## `submit_assessment` (standalone assessment submission) -/

/-- Python `dict` insertion: overwriting a key keeps its original position,
a fresh key is appended. -/
def dictInsert (d : List (Nat × α)) (k : Nat) (v : α) : List (Nat × α) :=
  if d.any (fun p => decide (p.1 = k)) then
    d.map (fun p => if p.1 = k then (k, v) else p)
  else d ++ [(k, v)]

/-- `question_lookup[q.id] = q` over all sections (later duplicates win). -/
def questionLookup (asmt : Assessment) (qid : Nat) : Option AQuestion :=
  ((asmt.sections.map (fun sec => sec.questions)).flatten).reverse.find?
    (fun q => decide (q.id = qid))

/-- `section_lookup[section.id] = section` (later duplicates win). -/
def sectionLookup (asmt : Assessment) (sid : Nat) : Option ASection :=
  asmt.sections.reverse.find? (fun sec => decide (sec.id = sid))

/-- `existing_answers = {ua.question_id: ua for ua in rows}`. -/
def existingAnswerDict (s : Store) (aid : Nat) : List (Nat × UserAnswer) :=
  (answersFor s aid).foldl (fun d ua => dictInsert d ua.question_id ua) []

/-- `SubmitAssessmentAnswerRequest`. -/
structure AnswerSubmissionReq where
  question_id : Nat
  selected_option : String
  time_spent_seconds : Option Int
deriving DecidableEq

/-- `SubmitAssessmentRequest`. -/
structure SubmitAssessmentRequest where
  attempt_id : Nat
  answers : List AnswerSubmissionReq
  tab_switches : Nat
deriving DecidableEq

/-- Step 5 of `submit_assessment`: pre-saved answers overlaid with the
request's inline answers (inline wins per question id). -/
def mergedAnswers (existing : List (Nat × UserAnswer))
    (reqs : List AnswerSubmissionReq) : List (Nat × Option String) :=
  reqs.foldl (fun d a => dictInsert d a.question_id (some a.selected_option))
    (existing.map (fun p => (p.1, p.2.answer_text)))

/-- One row of a section's `questions` breakdown in the submit response. -/
structure QuestionResult where
  question_id : Nat
  question_number : String
  question_text : String
  user_answer : String
  correct_answer : String
  is_correct : Bool
  marks_obtained : ℚ
  max_marks : ℚ
deriving DecidableEq

/-- One entry of `section_results`. -/
structure SectionResult where
  section_id : Nat
  section_title : String
  total_marks : ℚ
  marks_obtained : ℚ
  questions : List QuestionResult
deriving DecidableEq

/-- Accumulator of the Step-7 evaluation loop: running score, the ordered
`section_results` dict and the store with the answer-row upserts so far. -/
structure EvalState where
  total_score : ℚ
  sections : List (Nat × SectionResult)
  store : Store
deriving DecidableEq

/-- The answer-row upsert inside the evaluation loop (`existing_answers`
membership decides update vs insert; rows are unique per
`(attempt_id, question_id)`). -/
def upsertEvalAnswer (st : Store) (existing : List (Nat × UserAnswer))
    (aid qid : Nat) (txt : String) (isc : Bool) (mo : ℚ) : Store :=
  if existing.any (fun p => decide (p.1 = qid)) then
    { st with answers := st.answers.map (fun ua =>
        if ua.attempt_id = aid ∧ ua.question_id = qid then
          { ua with
            answer_text := some txt
            is_correct := some isc
            marks_obtained := some mo }
        else ua) }
  else
    { st with answers := st.answers ++
        [{ attempt_id := aid, question_id := qid, answer_text := some txt,
           is_correct := some isc, marks_obtained := some mo,
           time_spent_seconds := some 0, answered_at := none }] }

/-- One iteration of the Step-7 loop of `submit_assessment`.  A question id
with no catalog entry is skipped (`continue`); otherwise correctness is
re-derived from the current question data and accumulated. -/
def evalStep (asmt : Assessment) (aid : Nat) (existing : List (Nat × UserAnswer))
    (st : EvalState) (p : Nat × Option String) : EvalState :=
  match questionLookup asmt p.1 with
  | none => st
  | some q =>
    let selected_option_id := get_option_id q.options p.2
    let is_correct := decide (q.correct_answer.getD "" = selected_option_id)
    let marks_obtained : ℚ := if is_correct then q.marks else 0
    let store1 := upsertEvalAnswer st.store existing aid p.1 selected_option_id
      is_correct marks_obtained
    let sections1 :=
      if st.sections.any (fun e => decide (e.1 = q.section_id)) then st.sections
      else st.sections ++ [(q.section_id,
        { section_id := q.section_id
          section_title :=
            match sectionLookup asmt q.section_id with
            | some sec => sec.title
            | none => "Unknown"
          total_marks := 0
          marks_obtained := 0
          questions := [] })]
    let user_answer_text := get_option_text_s q.options (some selected_option_id)
    let correct_answer_text :=
      if strFalsy q.correct_answer then ""
      else get_option_text_s q.options q.correct_answer
    let qres : QuestionResult :=
      { question_id := q.id
        question_number := q.question_number.getD (toString q.id)
        question_text := q.question_text.getD ""
        user_answer := user_answer_text
        correct_answer := correct_answer_text
        is_correct := is_correct
        marks_obtained := marks_obtained
        max_marks := q.marks }
    let sections2 := sections1.map (fun e =>
      if e.1 = q.section_id then
        (e.1, { e.2 with
          marks_obtained := e.2.marks_obtained + marks_obtained
          total_marks := e.2.total_marks + q.marks
          questions := e.2.questions ++ [qres] })
      else e)
    { total_score := st.total_score + marks_obtained
      sections := sections2
      store := store1 }

/-- Result body of `submit_assessment` (`AssessmentResultResponse`). -/
structure AssessmentResultResponse where
  attempt_id : Nat
  assessment_id : Nat
  score : ℚ
  total_marks : ℚ
  percentage : ℚ
  passed : Bool
  time_taken_seconds : Int
  completed_at : Option Int
  sections : List SectionResult
deriving DecidableEq

/-- `HTTPException`s of `submit_assessment`. -/
inductive SubmitErr where
  | attemptNotFound
  | alreadySubmitted
  | assessmentNotFound
deriving DecidableEq

/-- `submit_assessment` from `standalone_assessments.py`: validates the
attempt (rejecting an already-completed one with 400 "Assessment already
submitted"), merges pre-saved and inline answers, re-derives correctness for
every answer whose question is known, and finalizes the attempt. -/
def submit_assessment (uid : Nat) (data : SubmitAssessmentRequest) (now : Int)
    (s : Store) : Except SubmitErr AssessmentResultResponse × Store :=
  match findAttempt s data.attempt_id uid with
  | none => (.error .attemptNotFound, s)
  | some att =>
    if att.status = .completed then (.error .alreadySubmitted, s)
    else
      match s.assessments.find? (fun x => decide (x.id = att.test_id)) with
      | none => (.error .assessmentNotFound, s)
      | some asmt =>
        let existing := existingAnswerDict s data.attempt_id
        let merged := mergedAnswers existing data.answers
        let fin := merged.foldl (evalStep asmt data.attempt_id existing)
          { total_score := 0, sections := [], store := s }
        let percentage :=
          if 0 < asmt.total_marks then fin.total_score / asmt.total_marks * 100 else 0
        let flagged := asmt.max_tab_switches_allowed < data.tab_switches
        let att2 := { att with
          status := .completed
          score := fin.total_score
          percentage := percentage
          passed := decide (asmt.passing_marks ≤ fin.total_score)
          completed_at := some now
          time_taken_seconds :=
            match att.started_at with
            | some t0 => some (now - t0)
            | none => some 0
          tab_switches := data.tab_switches
          is_flagged := if flagged then true else att.is_flagged
          flag_reason :=
            if flagged then
              some ("Exceeded max tab switches: " ++ toString data.tab_switches
                ++ "/" ++ toString asmt.max_tab_switches_allowed)
            else att.flag_reason }
        (.ok { attempt_id := att.id
               assessment_id := asmt.id
               score := fin.total_score
               total_marks := asmt.total_marks
               percentage := percentage
               passed := decide (asmt.passing_marks ≤ fin.total_score)
               time_taken_seconds :=
                 match att.started_at with
                 | some t0 => now - t0
                 | none => 0
               completed_at := some now
               sections := fin.sections.map (fun e => e.2) },
         updateAttempt fin.store att2)

/-! ## `start_test` (attempt creation / resume, `tests.py`) -/

/-- `scalar_one_or_none()`: `none` on zero rows, the row on one, an error
(`MultipleResultsFound`) on several. -/
def scalarOneOrNone (l : List α) : Except Unit (Option α) :=
  match l with
  | [] => .ok none
  | [a] => .ok (some a)
  | _ => .error ()

/-- Stable insertion for `ORDER BY TestQuestion.order`. -/
def insertByOrder (x : TestLink) : List TestLink → List TestLink
  | [] => [x]
  | y :: ys => if x.order ≤ y.order then x :: y :: ys else y :: insertByOrder x ys

/-- `ORDER BY TestQuestion.order` over a test's junction rows. -/
def sortLinks (l : List TestLink) : List TestLink :=
  l.foldr insertByOrder []

/-- Questions linked to the test via `TestQuestion`, in configured order
(inner join: links to missing questions drop out). -/
def linkedQuestions (s : Store) (tid : Nat) : List Question :=
  (sortLinks (s.links.filter (fun lk => decide (lk.test_id = tid)))).filterMap
    (fun lk => findQuestion s lk.question_id)

/-- Stable insertion for `ORDER BY Question.id DESC`. -/
def insertByIdDesc (x : Question) : List Question → List Question
  | [] => [x]
  | y :: ys => if y.id ≤ x.id then x :: y :: ys else y :: insertByIdDesc x ys

/-- `_get_sample_questions`: fallback question resolution from the bank by
per-type configured counts when no questions are linked. -/
def sampleQuestions (s : Store) (t : Test) : List Question :=
  (if 0 < t.mcq_count then
    (s.questions.filter (fun q =>
      decide (q.question_type = "mcq" ∧ q.is_active))).take t.mcq_count
   else []) ++
  (if 0 < t.text_annotation_count then
    (s.questions.filter (fun q =>
      decide ((q.question_type = "text_annotation" ∨ q.question_type = "text" ∨
        q.question_type = "reading") ∧ q.is_active))).take t.text_annotation_count
   else []) ++
  (if 0 < t.image_annotation_count then
    (s.questions.filter (fun q =>
      decide ((q.question_type = "image_annotation" ∨ q.question_type = "image") ∧
        q.is_active))).take t.image_annotation_count
   else []) ++
  (if 0 < t.video_annotation_count then
    (s.questions.filter (fun q =>
      decide ((q.question_type = "video_annotation" ∨ q.question_type = "video") ∧
        q.is_active))).take t.video_annotation_count
   else []) ++
  (if 0 < t.agent_analysis_count then
    ((s.questions.filter (fun q =>
      decide (q.question_type = "agent_analysis" ∧ q.is_active ∧
        q.html_content ≠ none))).foldr insertByIdDesc []).take t.agent_analysis_count
   else [])

/-- Questions a test resolves to at start time: linked questions, falling
back to `_get_sample_questions` when none are linked. -/
def resolveQuestions (s : Store) (t : Test) : List Question :=
  let linked := linkedQuestions s t.id
  if linked.isEmpty then sampleQuestions s t else linked

/-- `ORDER BY started_at DESC LIMIT 1` (latest-started wins; ties keep the
earlier row). -/
def pickLater (acc : Option TestAttempt) (a : TestAttempt) : Option TestAttempt :=
  match acc with
  | none => some a
  | some b => if b.started_at.getD 0 < a.started_at.getD 0 then some a else some b

/-- `select(Test).where(id, is_active, is_published)` of `start_test`. -/
def findActiveTest (s : Store) (tid : Nat) : Option Test :=
  s.tests.find? (fun t =>
    decide (t.id = tid ∧ t.is_active = true ∧ t.is_published = true))

/-- The completed attempts of `(user, test)` (the retake check's rows). -/
def completedAttempts (s : Store) (uid tid : Nat) : List TestAttempt :=
  s.attempts.filter (fun a =>
    decide (a.test_id = tid ∧ a.user_id = uid ∧ a.status = .completed))

/-- The in-progress attempts of `(user, test)`. -/
def inProgressAttempts (s : Store) (uid tid : Nat) : List TestAttempt :=
  s.attempts.filter (fun a =>
    decide (a.test_id = tid ∧ a.user_id = uid ∧ a.status = .in_progress))

/-- The existing in-progress attempt of `(user, test)`, if any. -/
def latestInProgress (s : Store) (uid tid : Nat) : Option TestAttempt :=
  (inProgressAttempts s uid tid).foldl pickLater none

/-- `HTTPException`s of `start_test` (`multipleResults` is the 500 raised by
`scalar_one_or_none` on several completed rows). -/
inductive StartErr where
  | testNotFound
  | alreadyCompleted
  | noQuestionsConfigured
  | multipleResults
deriving DecidableEq

/-- `TestSessionResponse` (sanitized: ids and marks only, the response never
carries correct answers). -/
structure TestSessionResponse where
  attempt_id : Nat
  test_id : Nat
  duration_minutes : Nat
  total_questions : Nat
  question_ids : List Nat
  started_at : Option Int
deriving DecidableEq

/-- `start_test(test_id)`: refuses unpublished/inactive tests and completed
retakes, resumes an existing in-progress attempt unchanged, otherwise creates
a row; if the test then resolves to zero questions the endpoint deletes any
row it just created and fails. -/
def start_test (uid tid : Nat) (now : Int) (s : Store) :
    Except StartErr TestSessionResponse × Store :=
  match findActiveTest s tid with
  | none => (.error .testNotFound, s)
  | some test =>
    match scalarOneOrNone (completedAttempts s uid tid) with
    | .error _ => (.error .multipleResults, s)
    | .ok (some _) => (.error .alreadyCompleted, s)
    | .ok none =>
      match latestInProgress s uid tid with
      | some attempt =>
        let qs := resolveQuestions s test
        if qs.isEmpty then (.error .noQuestionsConfigured, s)
        else
          (.ok { attempt_id := attempt.id
                 test_id := test.id
                 duration_minutes := test.duration_minutes
                 total_questions := qs.length
                 question_ids := qs.map (fun q => q.id)
                 started_at := attempt.started_at }, s)
      | none =>
        let attempt : TestAttempt :=
          { id := s.nextAttemptId, user_id := uid, test_id := tid
            status := .in_progress, current_question := 0, score := 0
            total_marks := test.total_marks, percentage := 0, passed := false
            tab_switches := 0, fullscreen_exits := 0, is_flagged := false
            flag_reason := none, started_at := some now, completed_at := none
            time_taken_seconds := none }
        let s1 := { s with
          attempts := s.attempts ++ [attempt]
          nextAttemptId := s.nextAttemptId + 1 }
        let qs := resolveQuestions s1 test
        if qs.isEmpty then
          (.error .noQuestionsConfigured,
           { s1 with attempts := s1.attempts.filter (fun b =>
               decide (¬ b.id = attempt.id)) })
        else
          (.ok { attempt_id := attempt.id
                 test_id := test.id
                 duration_minutes := test.duration_minutes
                 total_questions := qs.length
                 question_ids := qs.map (fun q => q.id)
                 started_at := attempt.started_at }, s1)

/-! ## Answer-save paths (`tests.py`) -/

/-- `SubmitAnswerRequest` (the JSON `annotation_data` passthrough column is
omitted). -/
structure SubmitAnswerRequest where
  question_id : Nat
  answer_text : Option String
  time_spent_seconds : Option Int
deriving DecidableEq

/-- Results of `auto_save_answer` (it never raises). -/
inductive AutoSaveResult where
  | saved
  | notSaved
deriving DecidableEq

/-- `auto_save_answer`: silent draft upsert of the raw submitted value; it
performs no normalization and no scoring. -/
def auto_save_answer (aid uid : Nat) (data : SubmitAnswerRequest) (now : Int)
    (s : Store) : AutoSaveResult × Store :=
  match s.attempts.find? (fun a =>
    decide (a.id = aid ∧ a.user_id = uid ∧ a.status = .in_progress)) with
  | none => (.notSaved, s)
  | some _ =>
    match (answersFor s aid).find? (fun ua =>
      decide (ua.question_id = data.question_id)) with
    | some _ =>
      (.saved, { s with answers := s.answers.map (fun ua =>
        if ua.attempt_id = aid ∧ ua.question_id = data.question_id then
          { ua with
            answer_text := data.answer_text
            time_spent_seconds := data.time_spent_seconds
            answered_at := some now }
        else ua) })
    | none =>
      (.saved, { s with answers := s.answers ++
        [{ attempt_id := aid, question_id := data.question_id
           answer_text := data.answer_text, is_correct := none
           marks_obtained := some 0, time_spent_seconds := data.time_spent_seconds
           answered_at := some now }] })

/-- `HTTPException` of `bulk_save_answers`. -/
inductive BulkErr where
  | attemptNotFound
deriving DecidableEq

/-- Result of `bulk_save_answers`. -/
inductive BulkResult where
  | alreadyCompleted
  | saved (count total : Nat)
deriving DecidableEq

/-- The `(is_correct, marks_obtained)` opportunistically cached by the save
paths for an auto-scorable MCQ answer. -/
def cachedScore (question : Option Question) (normalized : Option String) :
    Option Bool × ℚ :=
  match question with
  | some q =>
    if q.question_type = "mcq" ∧ strFalsy q.correct_answer = false then
      (some (decide (normalized = q.correct_answer)),
       if normalized = q.correct_answer then q.marks else 0)
    else (none, 0)
  | none => (none, 0)

/-- The normalized value a save path stores for the submitted raw value. -/
def saveNormalized (question : Option Question) (raw : Option String) :
    Option String :=
  match question with
  | some q =>
    if q.question_type = "mcq" ∧ q.options.isEmpty = false then
      normalize_to_option_id q.options raw
    else raw
  | none => raw

/-- `bulk_save_answers`: one transaction saving every item; each item is
normalized, opportunistically scored and upserted on
`(attempt_id, question_id)`. -/
def bulk_save_answers (aid uid : Nat) (reqs : List SubmitAnswerRequest)
    (now : Int) (s : Store) : Except BulkErr BulkResult × Store :=
  match findAttempt s aid uid with
  | none => (.error .attemptNotFound, s)
  | some att =>
    if att.status = .completed then (.ok .alreadyCompleted, s)
    else
      let qids := reqs.map (fun r => r.question_id)
      let lookupQ := fun qid =>
        if qid ∈ qids then findQuestion s qid else none
      let step := fun (acc : Store × Nat) (ad : SubmitAnswerRequest) =>
        let question := lookupQ ad.question_id
        let normalized := saveNormalized question ad.answer_text
        let scored := cachedScore question normalized
        let st := acc.1
        let st1 :=
          match (answersFor st aid).find? (fun ua =>
            decide (ua.question_id = ad.question_id)) with
          | some _ =>
            { st with answers := st.answers.map (fun ua =>
                if ua.attempt_id = aid ∧ ua.question_id = ad.question_id then
                  { ua with
                    answer_text := normalized
                    time_spent_seconds := ad.time_spent_seconds
                    answered_at := some now
                    is_correct := scored.1
                    marks_obtained := some scored.2 }
                else ua) }
          | none =>
            { st with answers := st.answers ++
                [{ attempt_id := aid, question_id := ad.question_id
                   answer_text := normalized, is_correct := scored.1
                   marks_obtained := some scored.2
                   time_spent_seconds := ad.time_spent_seconds
                   answered_at := some now }] }
        (st1, acc.2 + 1)
      let fin := reqs.foldl step (s, 0)
      (.ok (.saved fin.2 reqs.length), fin.1)

/-- `HTTPException`s of `submit_answer`. -/
inductive SubmitAnswerErr where
  | attemptNotFound
  | questionNotFound
deriving DecidableEq

/-- `submit_answer`: single-answer save; normalizes, opportunistically scores
MCQs, upserts on `(attempt_id, question_id)` and advances
`current_question` when inserting. -/
def submit_answer (aid uid : Nat) (data : SubmitAnswerRequest) (now : Int)
    (s : Store) : Except SubmitAnswerErr Unit × Store :=
  match s.attempts.find? (fun a =>
    decide (a.id = aid ∧ a.user_id = uid ∧ a.status = .in_progress)) with
  | none => (.error .attemptNotFound, s)
  | some att =>
    match findQuestion s data.question_id with
    | none => (.error .questionNotFound, s)
    | some q =>
      let normalized := saveNormalized (some q) data.answer_text
      match (answersFor s aid).find? (fun ua =>
        decide (ua.question_id = data.question_id)) with
      | some _ =>
        (.ok (), { s with answers := s.answers.map (fun ua =>
          if ua.attempt_id = aid ∧ ua.question_id = data.question_id then
            let ua1 := { ua with
              answer_text := normalized
              time_spent_seconds := data.time_spent_seconds
              answered_at := some now }
            if q.question_type = "mcq" ∧ strFalsy q.correct_answer = false then
              { ua1 with
                is_correct := some (decide (normalized = q.correct_answer))
                marks_obtained :=
                  some (if normalized = q.correct_answer then q.marks else 0) }
            else ua1
          else ua) })
      | none =>
        let scored := cachedScore (some q) normalized
        (.ok (), { s with
          answers := s.answers ++
            [{ attempt_id := aid, question_id := data.question_id
               answer_text := normalized, is_correct := scored.1
               marks_obtained := some scored.2
               time_spent_seconds := data.time_spent_seconds
               answered_at := some now }]
          attempts := s.attempts.map (fun a =>
            if a.id = att.id then
              { a with current_question := a.current_question + 1 }
            else a) })

/-! ## Two concurrent finalize callers (cooperative interleaving model)

`complete_test` checks `attempt.status == "completed"` right after reading
the attempt, then performs several further awaited queries before the
unconditional completing UPDATE — so a second caller can be scheduled between
the check and the write.  A caller is modelled with one suspension point
between the read-check phase and the write phase. -/

/-- Program counter of one finalize caller: before the status check, past the
check (about to write), or finished with `(wrote, returned score)`. -/
inductive Pc where
  | init
  | armed
  | done (wrote : Bool) (ret : ℚ)
deriving DecidableEq

/-- The completing write of `complete_test` (its else-branch after the
check): evaluate the currently stored answers and set the completion columns.
Returns the written score. -/
def finalizeWrite (aid : Nat) (now : Int) (s : Store) : Store × ℚ :=
  match findAttemptById s aid with
  | none => (s, 0)
  | some att =>
    let test := findTest s att.test_id
    let answers := answersFor s aid
    let total_score := sumMarks answers
    let total_marks := pyOrQ att.total_marks
      (match test with | some t => t.total_marks | none => 0)
    let percentage := if 0 < total_marks then total_score / total_marks * 100 else 0
    let att2 := { att with
      status := .completed
      score := total_score
      percentage := percentage
      passed := decide (50 ≤ percentage)
      completed_at := some now
      time_taken_seconds :=
        match att.started_at with
        | some t0 => some (now - t0)
        | none => att.time_taken_seconds }
    (updateAttempt s att2, total_score)

/-- One scheduled step of a finalize caller. -/
def callerStep (aid : Nat) (now : Int) (s : Store) (pc : Pc) : Store × Pc :=
  match pc with
  | .init =>
    match findAttemptById s aid with
    | none => (s, .done false 0)
    | some att =>
      if att.status = .completed then (s, .done false att.score)
      else (s, .armed)
  | .armed =>
    let w := finalizeWrite aid now s
    (w.1, .done true w.2)
  | .done w r => (s, .done w r)

/-- System state of two racing finalize callers. -/
structure TwoCallers where
  store : Store
  pc0 : Pc
  pc1 : Pc
deriving DecidableEq

/-- Scheduler step: `false` steps caller 0 (wall-clock `n0`), `true` steps
caller 1 (wall-clock `n1`). -/
def sysStep (aid : Nat) (n0 n1 : Int) (sys : TwoCallers) (b : Bool) : TwoCallers :=
  if b then
    let w := callerStep aid n1 sys.store sys.pc1
    { sys with store := w.1, pc1 := w.2 }
  else
    let w := callerStep aid n0 sys.store sys.pc0
    { sys with store := w.1, pc0 := w.2 }

/-- Run a schedule of interleaved caller steps. -/
def runSched (aid : Nat) (n0 n1 : Int) (sched : List Bool) (sys : TwoCallers) :
    TwoCallers :=
  sched.foldl (sysStep aid n0 n1) sys

/-- How many of the two callers performed the completing write. -/
def wroteCount (sys : TwoCallers) : Nat :=
  (match sys.pc0 with | .done true _ => 1 | _ => 0) +
  (match sys.pc1 with | .done true _ => 1 | _ => 0)

/-- Whether a caller has finished. -/
def pcDone : Pc → Bool
  | .done _ _ => true
  | _ => false

/-- The score a finished caller returned (0 if not finished). -/
def pcRet : Pc → ℚ
  | .done _ r => r
  | _ => 0

/-! ## Spec-side comparison functions -/

/-- The score §4.4 of the spec prescribes: re-derive every merged answer from
current question data (normalize, compare to `correct_answer`, `marks` if
equal else 0), unknown questions contributing 0. -/
def specRederivedScore (asmt : Assessment) (merged : List (Nat × Option String)) :
    ℚ :=
  (merged.map (fun p =>
    match questionLookup asmt p.1 with
    | none => 0
    | some q =>
      if q.correct_answer.getD "" = get_option_id q.options p.2 then q.marks
      else 0)).sum

/-! ## Projections used by concrete counterexample evaluations -/

/-- Score and passed flag of a `complete_test` result. -/
def scoreAndPassed : Except CompleteErr TestResultResponse → Option (ℚ × Bool)
  | .ok r => some (r.score, r.passed)
  | .error _ => none

/-- The question ids appearing anywhere in a submit response's per-section
breakdown. -/
def breakdownQids (r : AssessmentResultResponse) : List Nat :=
  (r.sections.map (fun sec => sec.questions.map (fun q => q.question_id))).flatten

/-- The question ids of a submit result, `none` on error. -/
def submitQids : Except SubmitErr AssessmentResultResponse → Option (List Nat)
  | .ok r => some (breakdownQids r)
  | .error _ => none

/-- The score of a submit result, `none` on error. -/
def submitScore : Except SubmitErr AssessmentResultResponse → Option ℚ
  | .ok r => some r.score
  | .error _ => none

/-- The `(score, passed)` of a submit result, `none` on error. -/
def submitScorePassed : Except SubmitErr AssessmentResultResponse → Option (ℚ × Bool)
  | .ok r => some (r.score, r.passed)
  | .error _ => none

/-- The score of a `complete_test` result, `none` on error. -/
def scoreOnly : Except CompleteErr TestResultResponse → Option ℚ
  | .ok r => some r.score
  | .error _ => none

/-- Invariant of two finalize callers racing on attempt `aid` over base store
`base`: the answer rows never change, the attempt row is either still
untouched-in-progress or completed with the evaluated score, every finished
caller returned that score, and once some caller finished the row is
completed. -/
def raceInv (aid : Nat) (base : Store) (sys : TwoCallers) : Prop :=
  answersFor sys.store aid = answersFor base aid ∧
  (∃ a, findAttemptById sys.store aid = some a ∧
    (a.status = .in_progress ∨
      (a.status = .completed ∧ a.score = sumMarks (answersFor base aid)))) ∧
  (∀ w r, sys.pc0 = .done w r → r = sumMarks (answersFor base aid)) ∧
  (∀ w r, sys.pc1 = .done w r → r = sumMarks (answersFor base aid)) ∧
  ((pcDone sys.pc0 = true ∨ pcDone sys.pc1 = true) →
    ∃ a, findAttemptById sys.store aid = some a ∧ a.status = .completed ∧
      a.score = sumMarks (answersFor base aid))

/-! ## Concrete fixtures -/

/-- Two MCQ options as stored in a question's JSON blob. -/
def optsCapital : List OptBlob :=
  [.dict (some "i") (some "Paris"), .dict (some "ii") (some "Lyon")]

/-- A published, active two-mark test. -/
def demoTest : Test :=
  { id := 1, title := "Capitals", duration_minutes := 60, total_marks := 2
    passing_marks := 1, mcq_count := 0, text_annotation_count := 0
    image_annotation_count := 0, video_annotation_count := 0
    agent_analysis_count := 0, is_active := true, is_published := true }

/-- One MCQ question, correct option id `"i"`, worth 2 marks. -/
def demoQuestion : Question :=
  { id := 10, question_type := "mcq", question_text := "Capital of France?"
    options := optsCapital, correct_answer := some "i", marks := 2
    html_content := none, is_active := true }

/-- Link of `demoQuestion` into `demoTest`. -/
def demoLink : TestLink :=
  { test_id := 1, question_id := 10, order := 1 }

/-- Catalog-only store: no attempts yet. -/
def demoStore : Store :=
  { tests := [demoTest], questions := [demoQuestion], links := [demoLink]
    assessments := [], attempts := [], answers := [], nextAttemptId := 1 }

/-- The attempt row `start_test 7 1 100 demoStore` creates. -/
def demoAttempt : TestAttempt :=
  { id := 1, user_id := 7, test_id := 1, status := .in_progress
    current_question := 0, score := 0, total_marks := 2, percentage := 0
    passed := false, tab_switches := 0, fullscreen_exits := 0
    is_flagged := false, flag_reason := none, started_at := some 100
    completed_at := none, time_taken_seconds := none }

/-- `demoStore` after that first start. -/
def demoStarted : Store :=
  { demoStore with attempts := [demoAttempt], nextAttemptId := 2 }

/-- The session response of that first start. -/
def demoResp : TestSessionResponse :=
  { attempt_id := 1, test_id := 1, duration_minutes := 60
    total_questions := 1, question_ids := [10], started_at := some 100 }

/-- An active published test that resolves to zero questions. -/
def noQTest : Test :=
  { id := 2, title := "Empty", duration_minutes := 30, total_marks := 0
    passing_marks := 0, mcq_count := 0, text_annotation_count := 0
    image_annotation_count := 0, video_annotation_count := 0
    agent_analysis_count := 0, is_active := true, is_published := true }

/-- Store holding only the zero-question test. -/
def noQStore : Store :=
  { tests := [noQTest], questions := [], links := [], assessments := []
    attempts := [], answers := [], nextAttemptId := 1 }

/-- An in-progress attempt of user 7 on `demoTest`. -/
def inProgAttempt : TestAttempt :=
  { id := 1, user_id := 7, test_id := 1, status := .in_progress
    current_question := 0, score := 0, total_marks := 2, percentage := 0
    passed := false, tab_switches := 0, fullscreen_exits := 0
    is_flagged := false, flag_reason := none, started_at := some 100
    completed_at := none, time_taken_seconds := none }

/-- Store with the in-progress attempt and no saved answers. -/
def inProgStore : Store :=
  { tests := [demoTest], questions := [demoQuestion], links := [demoLink]
    assessments := [], attempts := [inProgAttempt], answers := []
    nextAttemptId := 2 }

/-- A saved, opportunistically scored correct answer (2 cached marks). -/
def raceAnswer : UserAnswer :=
  { attempt_id := 1, question_id := 10, answer_text := some "i"
    is_correct := some true, marks_obtained := some 2
    time_spent_seconds := some 5, answered_at := some 150 }

/-- In-progress attempt with one cached-correct answer. -/
def raceStore : Store :=
  { inProgStore with answers := [raceAnswer] }

/-- A correct answer saved by the auto-save path: raw value stored, cache
left at `is_correct = NULL`, `marks_obtained = 0`. -/
def staleAnswer : UserAnswer :=
  { attempt_id := 1, question_id := 10, answer_text := some "i"
    is_correct := none, marks_obtained := some 0
    time_spent_seconds := some 5, answered_at := some 150 }

/-- In-progress attempt whose only answer is correct but carries a stale
zero cache. -/
def staleStore : Store :=
  { inProgStore with answers := [staleAnswer] }

/-- A completed attempt of user 7 on `demoTest`. -/
def doneAttempt : TestAttempt :=
  { id := 1, user_id := 7, test_id := 1, status := .completed
    current_question := 1, score := 2, total_marks := 2, percentage := 100
    passed := true, tab_switches := 0, fullscreen_exits := 0
    is_flagged := false, flag_reason := none, started_at := some 100
    completed_at := some 200, time_taken_seconds := some 100 }

/-- Store with the completed attempt and its scored answer row. -/
def doneStore : Store :=
  { tests := [demoTest], questions := [demoQuestion], links := [demoLink]
    assessments := [], attempts := [doneAttempt], answers := [raceAnswer]
    nextAttemptId := 2 }

/-- Standalone-assessment question: id 21 in section 31, correct `"i"`,
2 marks. -/
def asmtQ : AQuestion :=
  { id := 21, section_id := 31, question_number := some "1"
    question_text := some "Capital of France?", options := optsCapital
    correct_answer := some "i", marks := 2 }

/-- The single section of the demo assessment. -/
def asmtSec : ASection :=
  { id := 31, title := "Geography", questions := [asmtQ] }

/-- A standalone assessment with one section and one question. -/
def demoAssessment : Assessment :=
  { id := 2, title := some "Demo", category := some "general"
    total_marks := 2, passing_marks := 1, max_tab_switches_allowed := 3
    sections := [asmtSec] }

/-- In-progress attempt of user 7 on the standalone assessment. -/
def saAttempt : TestAttempt :=
  { id := 3, user_id := 7, test_id := 2, status := .in_progress
    current_question := 0, score := 0, total_marks := 2, percentage := 0
    passed := false, tab_switches := 0, fullscreen_exits := 0
    is_flagged := false, flag_reason := none, started_at := some 100
    completed_at := none, time_taken_seconds := none }

/-- Pre-saved answer by option text (to be normalized at submit). -/
def saAnswer : UserAnswer :=
  { attempt_id := 3, question_id := 21, answer_text := some "Paris"
    is_correct := some false, marks_obtained := some 0
    time_spent_seconds := some 9, answered_at := some 150 }

/-- Store for a standalone submission with one pre-saved answer. -/
def saStore : Store :=
  { tests := [], questions := [], links := [], assessments := [demoAssessment]
    attempts := [saAttempt], answers := [saAnswer], nextAttemptId := 4 }

/-- A saved answer whose question id 99 matches no catalog question. -/
def strayAnswer : UserAnswer :=
  { attempt_id := 3, question_id := 99, answer_text := some "x"
    is_correct := some false, marks_obtained := some 0
    time_spent_seconds := some 3, answered_at := some 160 }

/-- `saStore` plus the unknown-question answer row. -/
def saStrayStore : Store :=
  { saStore with answers := [saAnswer, strayAnswer] }

/-- A 100-mark test whose configured `passing_marks` is 30. -/
def test100 : Test :=
  { id := 5, title := "Hundred", duration_minutes := 60, total_marks := 100
    passing_marks := 30, mcq_count := 0, text_annotation_count := 0
    image_annotation_count := 0, video_annotation_count := 0
    agent_analysis_count := 0, is_active := true, is_published := true }

/-- In-progress attempt on `test100`. -/
def att100 : TestAttempt :=
  { id := 4, user_id := 7, test_id := 5, status := .in_progress
    current_question := 0, score := 0, total_marks := 100, percentage := 0
    passed := false, tab_switches := 0, fullscreen_exits := 0
    is_flagged := false, flag_reason := none, started_at := some 100
    completed_at := none, time_taken_seconds := none }

/-- Answer rows carrying 40 cached marks in total. -/
def ans40 : UserAnswer :=
  { attempt_id := 4, question_id := 50, answer_text := some "a"
    is_correct := some true, marks_obtained := some 40
    time_spent_seconds := some 4, answered_at := some 140 }

/-- Store scoring 40/100 against configured passing marks 30. -/
def c8Store : Store :=
  { tests := [test100], questions := [], links := [], assessments := []
    attempts := [att100], answers := [ans40], nextAttemptId := 5 }

/-- Well-formed MCQ options: every entry is a dict holding an id and a
non-empty text, no option's text coincides with a different option's id, and
options sharing a text share an id. -/
def WFOptions (options : List OptBlob) : Prop :=
  (∀ o ∈ options, ∃ i t, o = OptBlob.dict (some i) (some t) ∧ t ≠ "") ∧
  (∀ i t i' t', OptBlob.dict (some i) (some t) ∈ options →
    OptBlob.dict (some i') (some t') ∈ options → t = i' → i = i') ∧
  (∀ i t i' t', OptBlob.dict (some i) (some t) ∈ options →
    OptBlob.dict (some i') (some t') ∈ options → t = t' → i = i')

/-- Every question entry of an accumulated `section_results` dict refers to a
question known to the assessment's catalog. -/
def sectionsKnown (asmt : Assessment) (secs : List (Nat × SectionResult)) : Prop :=
  ∀ e ∈ secs, ∀ qr ∈ e.2.questions, (questionLookup asmt qr.question_id).isSome = true

/-! ## Helper lemmas -/

theorem pyOrQ_zero (x : ℚ) : pyOrQ x 0 = x := by
  unfold pyOrQ
  split <;> simp_all

theorem findAttemptById_id {s : Store} {aid : Nat} {a : TestAttempt}
    (h : findAttemptById s aid = some a) : a.id = aid := by
  have := List.find?_some h
  simpa using this

theorem findAttempt_ids {s : Store} {aid uid : Nat} {a : TestAttempt}
    (h : findAttempt s aid uid = some a) : a.id = aid ∧ a.user_id = uid := by
  have := List.find?_some h
  simpa using this

theorem find_map_update {l : List TestAttempt} {aid : Nat} {a : TestAttempt}
    (h : (l.find? (fun b => decide (b.id = aid))).isSome) (ha : a.id = aid) :
    (l.map (fun b => if b.id = a.id then a else b)).find?
      (fun b => decide (b.id = aid)) = some a := by
  induction l with
  | nil => simp at h
  | cons x xs ih =>
    by_cases hx : x.id = aid
    · have hx2 : x.id = a.id := by rw [ha]; exact hx
      rw [List.map_cons, if_pos hx2]
      exact List.find?_cons_of_pos _ (by simp [ha])
    · have hx2 : ¬ x.id = a.id := by rw [ha]; exact hx
      rw [List.map_cons, if_neg hx2,
        List.find?_cons_of_neg _ (by simp [hx])]
      rw [List.find?_cons_of_neg _ (by simp [hx])] at h
      exact ih h

theorem findAttemptById_update {s : Store} {aid : Nat} {a : TestAttempt}
    (h : (findAttemptById s aid).isSome) (ha : a.id = aid) :
    findAttemptById (updateAttempt s a) aid = some a :=
  find_map_update h ha

theorem answersFor_update (s : Store) (a : TestAttempt) (aid : Nat) :
    answersFor (updateAttempt s a) aid = answersFor s aid := rfl

theorem applyTabSwitches_id (a : TestAttempt) (d : Option CompleteTestRequest) :
    (applyTabSwitches a d).id = a.id := by
  unfold applyTabSwitches
  cases d with
  | none => rfl
  | some r =>
    dsimp only
    cases r.tab_switches with
    | none => rfl
    | some n =>
      dsimp only
      split
      · rfl
      · rw [apply_ite TestAttempt.id]
        simp

theorem foldl_pickLater_some (l : List TestAttempt) (b : TestAttempt) :
    (l.foldl pickLater (some b)).isSome = true := by
  induction l generalizing b with
  | nil => rfl
  | cons x xs ih =>
    simp only [List.foldl_cons, pickLater]
    split <;> exact ih _

theorem latestInProgress_none {s : Store} {uid tid : Nat}
    (h : latestInProgress s uid tid = none) :
    inProgressAttempts s uid tid = [] := by
  unfold latestInProgress at h
  cases hl : inProgressAttempts s uid tid with
  | nil => rfl
  | cons x xs =>
    rw [hl] at h
    simp only [List.foldl_cons, pickLater] at h
    have := foldl_pickLater_some xs x
    rw [h] at this
    simp at this

theorem foldl_pickLater_mem {l : List TestAttempt} {acc : Option TestAttempt}
    {a : TestAttempt} (h : l.foldl pickLater acc = some a) :
    a ∈ l ∨ acc = some a := by
  induction l generalizing acc with
  | nil => exact Or.inr h
  | cons x xs ih =>
    simp only [List.foldl_cons] at h
    rcases ih h with hm | hacc
    · exact Or.inl (List.mem_cons_of_mem _ hm)
    · unfold pickLater at hacc
      cases acc with
      | none =>
        cases hacc
        exact Or.inl (List.mem_cons_self _ _)
      | some b =>
        dsimp only at hacc
        split at hacc
        · cases hacc
          exact Or.inl (List.mem_cons_self _ _)
        · exact Or.inr hacc

theorem latestInProgress_mem {s : Store} {uid tid : Nat} {a : TestAttempt}
    (h : latestInProgress s uid tid = some a) :
    a ∈ inProgressAttempts s uid tid := by
  unfold latestInProgress at h
  rcases foldl_pickLater_mem h with hm | hacc
  · exact hm
  · simp at hacc

theorem resolve_attempts_irrel (s : Store) (x : List TestAttempt) (y : Nat)
    (t : Test) :
    resolveQuestions { s with attempts := x, nextAttemptId := y } t =
      resolveQuestions s t := rfl

/-! ## C5 — the answer normalizer -/

/-- The demo options satisfy the well-formedness conditions. -/
theorem wf_optsCapital : WFOptions optsCapital := by
  refine ⟨?_, ?_, ?_⟩
  · intro o ho
    simp only [optsCapital, List.mem_cons, List.not_mem_nil, or_false] at ho
    rcases ho with rfl | rfl
    · exact ⟨"i", "Paris", rfl, by decide⟩
    · exact ⟨"ii", "Lyon", rfl, by decide⟩
  · intro i t i' t' h1 h2 hco
    simp only [optsCapital, List.mem_cons, List.not_mem_nil, or_false,
      OptBlob.dict.injEq, Option.some.injEq] at h1 h2
    rcases h1 with ⟨rfl, rfl⟩ | ⟨rfl, rfl⟩ <;> rcases h2 with ⟨rfl, rfl⟩ | ⟨rfl, rfl⟩ <;>
      first | rfl | exact absurd hco (by decide)
  · intro i t i' t' h1 h2 hco
    simp only [optsCapital, List.mem_cons, List.not_mem_nil, or_false,
      OptBlob.dict.injEq, Option.some.injEq] at h1 h2
    rcases h1 with ⟨rfl, rfl⟩ | ⟨rfl, rfl⟩ <;> rcases h2 with ⟨rfl, rfl⟩ | ⟨rfl, rfl⟩ <;>
      first | rfl | exact absurd hco (by decide)

/-- C5 (amended): `normalize_to_option_id` is a pure total function that
returns the value unchanged when it matches some option's id and when it
matches nothing; and on well-formed options (every entry a dict with an id
and a non-empty text, no text colliding with a different option's id, equal
texts sharing an id) it maps every option's text to that option's id and
fixes every option's id. -/
theorem normalize_spec (options : List OptBlob) (hwf : WFOptions options) :
    (∀ v : String, options.any (fun o => idMatch o v) = true →
      normalize_to_option_id options (some v) = some v) ∧
    (∀ v : String, options.any (fun o => idMatch o v) = false →
      options.find? (fun o => textMatch o v) = none →
      normalize_to_option_id options (some v) = some v) ∧
    (∀ i t, OptBlob.dict (some i) (some t) ∈ options →
      normalize_to_option_id options (some t) = some i ∧
      normalize_to_option_id options (some i) = some i) := by
  obtain ⟨hdict, hcol, hdup⟩ := hwf
  refine ⟨?_, ?_, ?_⟩
  · intro v hv
    unfold normalize_to_option_id
    by_cases he : (options.isEmpty || strFalsy (some v)) = true
    · simp [he]
    · simp [he, hv]
  · intro v hv hf
    unfold normalize_to_option_id
    by_cases he : (options.isEmpty || strFalsy (some v)) = true
    · simp [he]
    · simp [he, hv, hf]
  · intro i t hmem
    have htne : t ≠ "" := by
      obtain ⟨i0, t0, heq, ht0⟩ := hdict _ hmem
      injection heq with h1 h2
      injection h2 with h2
      intro hc
      exact ht0 (h2 ▸ hc)
    have hne : options.isEmpty = false := by
      cases options with
      | nil => simp at hmem
      | cons _ _ => rfl
    constructor
    · have hfal : strFalsy (some t) = false := by simp [strFalsy, htne]
      unfold normalize_to_option_id
      rw [hne, hfal]
      simp only [Bool.or_self, Bool.false_eq_true, if_false]
      by_cases hid : options.any (fun o => idMatch o t) = true
      · simp only [hid, if_true]
        rw [List.any_eq_true] at hid
        obtain ⟨o', ho'mem, ho'⟩ := hid
        obtain ⟨i1, t1, hsh, -⟩ := hdict _ ho'mem
        subst hsh
        simp only [idMatch, Option.some.injEq, decide_eq_true_eq] at ho'
        have hit : i = t := (hcol i t i1 t1 hmem ho'mem ho'.symm).trans ho'
        rw [hit]
      · have hid' : options.any (fun o => idMatch o t) = false :=
          Bool.eq_false_iff.mpr hid
        simp only [hid', if_false, Bool.false_eq_true]
        have hfind : (options.find? (fun o => textMatch o t)).isSome := by
          rw [List.find?_isSome]
          exact ⟨_, hmem, by simp [textMatch]⟩
        obtain ⟨o0, ho0⟩ := Option.isSome_iff_exists.mp hfind
        rw [ho0]
        have ho0mem := List.mem_of_find?_eq_some ho0
        have ho0p := List.find?_some ho0
        obtain ⟨i2, t2, hsh2, -⟩ := hdict _ ho0mem
        subst hsh2
        simp only [textMatch, Option.some.injEq, decide_eq_true_eq] at ho0p
        have hii : i = i2 := hdup i t i2 t2 hmem ho0mem ho0p.symm
        simp [blobIdOr, hii]
    · by_cases hi : i = ""
      · unfold normalize_to_option_id
        simp [strFalsy, hi]
      · have hfal : strFalsy (some i) = false := by simp [strFalsy, hi]
        have hid : options.any (fun o => idMatch o i) = true := by
          rw [List.any_eq_true]
          exact ⟨_, hmem, by simp [idMatch]⟩
        unfold normalize_to_option_id
        rw [hne, hfal]
        simp [hid]

/-- C5 (counterexample): the unconditional law
`normalize(options, option.text) = option.id` fails on the code at three
concrete inputs: an option with empty text, an option whose text equals a
different option's id, and two options sharing a text. -/
theorem normalize_counterexample :
    (normalize_to_option_id [OptBlob.dict (some "a") (some "")] (some "")
        = some "" ∧
      ¬ (some "" : Option String) = some "a") ∧
    (normalize_to_option_id
        [OptBlob.dict (some "Paris") (some "x"), OptBlob.dict (some "i") (some "Paris")]
        (some "Paris") = some "Paris" ∧
      ¬ (some "Paris" : Option String) = some "i") ∧
    (normalize_to_option_id
        [OptBlob.dict (some "a") (some "t"), OptBlob.dict (some "b") (some "t")]
        (some "t") = some "a" ∧
      ¬ (some "t" : Option String) = some "b") := by
  decide

/-- C5 (witness): the round-trip law holds on the concrete demo options. -/
theorem normalize_spec_witness :
    normalize_to_option_id optsCapital (some "Paris") = some "i" ∧
    normalize_to_option_id optsCapital (some "i") = some "i" :=
  (normalize_spec optsCapital wf_optsCapital).2.2 "i" "Paris"
    (by simp [optsCapital])

/-! ## C7 / C6 — start path -/

theorem findActiveTest_attempts_irrel (s : Store) (x : List TestAttempt) (y : Nat)
    (tid : Nat) :
    findActiveTest { s with attempts := x, nextAttemptId := y } tid =
      findActiveTest s tid := rfl

/-- C7: starting a test that resolves to zero questions fails with
`noQuestionsConfigured` and leaves the attempt and answer rows exactly as
they were (any freshly created row is deleted again before the error). -/
theorem start_no_questions (uid tid : Nat) (now : Int) (s : Store) (t : Test)
    (ht : findActiveTest s tid = some t)
    (hc : completedAttempts s uid tid = [])
    (hq : resolveQuestions s t = [])
    (hfresh : ∀ a ∈ s.attempts, ¬ a.id = s.nextAttemptId) :
    (start_test uid tid now s).1 = .error .noQuestionsConfigured ∧
    (start_test uid tid now s).2.attempts = s.attempts ∧
    (start_test uid tid now s).2.answers = s.answers := by
  unfold start_test
  rw [ht, hc]
  dsimp only [scalarOneOrNone]
  cases hl : latestInProgress s uid tid with
  | some a =>
    rw [hq]
    simp
  | none =>
    simp only [resolve_attempts_irrel, hq, List.isEmpty_nil, if_true]
    refine ⟨trivial, ?_, trivial⟩
    dsimp only
    have h1 : s.attempts.filter
        (fun b => decide (¬ b.id = s.nextAttemptId)) = s.attempts :=
      List.filter_eq_self.mpr (fun a ha => by simp [hfresh a ha])
    have h2 : List.filter (fun b => decide (¬ b.id = s.nextAttemptId))
        ([{ id := s.nextAttemptId, user_id := uid, test_id := tid
            status := .in_progress, current_question := 0, score := 0
            total_marks := t.total_marks, percentage := 0, passed := false
            tab_switches := 0, fullscreen_exits := 0, is_flagged := false
            flag_reason := none, started_at := some now, completed_at := none
            time_taken_seconds := none }] : List TestAttempt) = [] := by simp
    rw [List.filter_append, h1, h2, List.append_nil]

/-- C7 (witness): at the concrete zero-question store the start fails and the
rows are untouched. -/
theorem start_no_questions_witness :
    (start_test 7 2 100 noQStore).1 = .error .noQuestionsConfigured ∧
    (start_test 7 2 100 noQStore).2.attempts = noQStore.attempts ∧
    (start_test 7 2 100 noQStore).2.answers = noQStore.answers :=
  start_no_questions 7 2 100 noQStore noQTest (by decide) (by decide) (by decide)
    (by decide)

theorem scalarOneOrNone_ok_none {α} {l : List α}
    (h : scalarOneOrNone l = .ok none) : l = [] := by
  cases l with
  | nil => rfl
  | cons x xs => cases xs <;> simp [scalarOneOrNone] at h

/-- C6: if a start call succeeds with response `r` and store `s'`, calling
start again (at any later wall-clock time) returns the very same response —
same attempt id, same `started_at`, no timer reset — and leaves the store
unchanged; and the served attempt row is stored in progress. -/
theorem start_resume_idempotent (uid tid : Nat) (now now2 : Int) (s s' : Store)
    (r : TestSessionResponse)
    (h : start_test uid tid now s = (.ok r, s')) :
    start_test uid tid now2 s' = (.ok r, s') ∧
    ∃ a ∈ s'.attempts, a.id = r.attempt_id ∧ a.status = .in_progress ∧
      a.started_at = r.started_at := by
  unfold start_test at h
  cases ht : findActiveTest s tid with
  | none => rw [ht] at h; simp at h
  | some test =>
  cases hsc : scalarOneOrNone (completedAttempts s uid tid) with
  | error u => simp only [ht, hsc] at h; simp at h
  | ok o =>
  cases o with
  | some a0 => simp only [ht, hsc] at h; simp at h
  | none =>
  cases hl : latestInProgress s uid tid with
  | some a =>
    simp only [ht, hsc, hl] at h
    by_cases hqe : (resolveQuestions s test).isEmpty = true
    · rw [if_pos hqe] at h
      simp at h
    · rw [if_neg hqe] at h
      rw [Prod.mk.injEq, Except.ok.injEq] at h
      obtain ⟨h1, h2⟩ := h
      subst h2
      subst h1
      constructor
      · unfold start_test
        simp only [ht, hsc, hl]
        rw [if_neg hqe]
      · have hmem := latestInProgress_mem hl
        rw [inProgressAttempts, List.mem_filter] at hmem
        obtain ⟨hmem, hprop⟩ := hmem
        simp only [decide_eq_true_eq] at hprop
        exact ⟨a, hmem, rfl, hprop.2.2, rfl⟩
  | none =>
    have hnil := latestInProgress_none hl
    rw [inProgressAttempts] at hnil
    have hcnil := scalarOneOrNone_ok_none hsc
    rw [completedAttempts] at hcnil
    simp only [ht, hsc, hl, resolve_attempts_irrel] at h
    by_cases hqe : (resolveQuestions s test).isEmpty = true
    · rw [if_pos hqe] at h
      simp at h
    · rw [if_neg hqe] at h
      rw [Prod.mk.injEq, Except.ok.injEq] at h
      obtain ⟨h1, h2⟩ := h
      subst h2
      subst h1
      constructor
      · unfold start_test
        simp only [findActiveTest_attempts_irrel, ht]
        simp only [completedAttempts, latestInProgress, inProgressAttempts]
        dsimp only
        rw [List.filter_append, List.filter_append, hnil, hcnil]
        simp only [List.filter_cons, List.filter_nil, decide_eq_true_eq]
        rw [if_neg (by simp), if_pos (by simp)]
        dsimp only [scalarOneOrNone, List.nil_append, List.foldl_cons,
          List.foldl_nil, pickLater]
        simp only [resolve_attempts_irrel]
        rw [if_neg hqe]
      · refine ⟨_, List.mem_append_right _ (List.mem_cons_self _ _), rfl, rfl, rfl⟩

/-- C6 (witness): starting the demo test twice serves the same attempt. -/
theorem start_resume_idempotent_witness :
    start_test 7 1 101 demoStarted = (.ok demoResp, demoStarted) ∧
    ∃ a ∈ demoStarted.attempts, a.id = demoResp.attempt_id ∧
      a.status = .in_progress ∧ a.started_at = demoResp.started_at :=
  start_resume_idempotent 7 1 100 101 demoStore demoStarted demoResp (by decide)

/-! ## C1 — completion idempotence -/

/-- C1 (amended): on an already-completed attempt the test-engine paths are
idempotent — `complete_test` returns the stored result rebuilt from the row
(independently of the call's wall-clock time and request body, so two calls
return identical results) and `emergency_submit_test` returns the stored
score, both leaving the store unchanged — while the standalone
`submit_assessment` instead rejects the call with the `alreadySubmitted`
error (also without mutating anything). -/
theorem completion_idempotent (aid uid : Nat) (d : Option CompleteTestRequest)
    (now : Int) (req : SubmitAssessmentRequest) (s : Store) (att : TestAttempt)
    (h : findAttempt s aid uid = some att)
    (hid : findAttemptById s aid = some att)
    (hreq : req.attempt_id = aid)
    (hc : att.status = .completed) :
    complete_test aid uid d now s = (.ok (storedResult s aid att), s) ∧
    emergency_submit_test aid now s =
      (.alreadyCompleted att.score att.percentage, s) ∧
    submit_assessment uid req now s = (.error .alreadySubmitted, s) := by
  refine ⟨?_, ?_, ?_⟩
  · unfold complete_test
    simp only [h, hc, if_true]
  · unfold emergency_submit_test
    simp only [hid, hc, if_true]
  · unfold submit_assessment
    rw [hreq]
    simp only [h, hc, if_true]

/-- C1 (counterexample): on a completed attempt the standalone submit path
errors with 400 "Assessment already submitted" instead of returning the
stored result. -/
theorem completion_idempotent_counterexample :
    findAttemptById doneStore 1 = some doneAttempt ∧
    doneAttempt.status = .completed ∧
    (submit_assessment 7 { attempt_id := 1, answers := [], tab_switches := 0 }
      1000 doneStore).1 = .error .alreadySubmitted := by
  decide

/-- C1 (witness): the amended idempotence at the concrete completed store. -/
theorem completion_idempotent_witness :
    complete_test 1 7 none 1000 doneStore =
      (.ok (storedResult doneStore 1 doneAttempt), doneStore) ∧
    emergency_submit_test 1 1000 doneStore =
      (.alreadyCompleted doneAttempt.score doneAttempt.percentage, doneStore) ∧
    submit_assessment 7 { attempt_id := 1, answers := [], tab_switches := 0 }
      1000 doneStore = (.error .alreadySubmitted, doneStore) :=
  completion_idempotent 1 7 none 1000 _ doneStore doneAttempt (by decide)
    (by decide) rfl (by decide)

/-! ## C8 — pass thresholds -/

/-- C8 (amended): the test-engine completion path sets
`passed ⟺ percentage ≥ 50` — a hard-coded half of `total_marks`, ignoring the
test's configured `passing_marks` — while the standalone submit path sets
`passed ⟺ score ≥ assessment.passing_marks`. -/
theorem pass_thresholds (aid uid : Nat) (d : Option CompleteTestRequest)
    (now : Int) (s : Store) (att : TestAttempt)
    (h : findAttempt s aid uid = some att) (hst : ¬ att.status = .completed)
    (uid2 : Nat) (req : SubmitAssessmentRequest) (now2 : Int) (s2 : Store)
    (att2 : TestAttempt) (asmt : Assessment)
    (h2 : findAttempt s2 req.attempt_id uid2 = some att2)
    (hst2 : ¬ att2.status = .completed)
    (ha : s2.assessments.find? (fun x => decide (x.id = att2.test_id)) = some asmt) :
    (∃ r, (complete_test aid uid d now s).1 = .ok r ∧
      r.passed = decide (50 ≤ r.percentage)) ∧
    (∃ r2, (submit_assessment uid2 req now2 s2).1 = .ok r2 ∧
      r2.passed = decide (asmt.passing_marks ≤ r2.score)) := by
  constructor
  · unfold complete_test
    simp only [h, hst, if_false]
    exact ⟨_, rfl, by simp only [pyOrQ_zero]⟩
  · unfold submit_assessment
    simp only [h2, hst2, if_false, ha]
    exact ⟨_, rfl, rfl⟩

/-- C8 (counterexample): a test configured with `passing_marks = 30` out of
100; the stored answers score 40, so the claim says passed, but
`complete_test` stores `passed = false` because it hard-codes the 50%
threshold. -/
theorem pass_thresholds_counterexample :
    scoreAndPassed ((complete_test 4 7 none 1000 c8Store).1) = some (40, false) ∧
    (findTest c8Store 5).map Test.passing_marks = some 30 ∧
    ((30 : ℚ) ≤ 40) := by
  refine ⟨?_, by norm_num [findTest, c8Store, test100, List.find?], by norm_num⟩
  norm_num [complete_test, findAttempt, findTest, answersFor, sumMarks,
    scoreAndPassed, applyTabSwitches, pyOrQ, c8Store, att100, test100, ans40,
    List.find?, List.filter]
  rfl

/-- C8 (witness): both threshold rules at concrete stores. -/
theorem pass_thresholds_witness :
    (∃ r, (complete_test 1 7 none 1000 raceStore).1 = .ok r ∧
      r.passed = decide (50 ≤ r.percentage)) ∧
    (∃ r2, (submit_assessment 7 { attempt_id := 3, answers := [], tab_switches := 0 }
        1000 saStore).1 = .ok r2 ∧
      r2.passed = decide (demoAssessment.passing_marks ≤ r2.score)) :=
  pass_thresholds 1 7 none 1000 raceStore inProgAttempt (by decide) (by decide)
    7 _ 1000 saStore saAttempt demoAssessment (by decide) (by decide) (by decide)

/-! ## C4 — emergency path equals normal path -/

/-- C4: on any not-yet-completed attempt, the emergency submit drives the row
to `completed` and stores exactly the score the normal complete path stores
from the same answer rows — the sum of the cached `marks_obtained`. -/
theorem emergency_matches_normal (aid uid : Nat) (d : Option CompleteTestRequest)
    (now now2 : Int) (s : Store) (att : TestAttempt)
    (hid : findAttemptById s aid = some att)
    (h : findAttempt s aid uid = some att)
    (hst : ¬ att.status = .completed) :
    ∃ ae ac,
      findAttemptById (emergency_submit_test aid now s).2 aid = some ae ∧
      findAttemptById (complete_test aid uid d now2 s).2 aid = some ac ∧
      ae.status = .completed ∧ ac.status = .completed ∧
      ae.score = sumMarks (answersFor s aid) ∧ ac.score = ae.score := by
  have hisid : (findAttemptById s aid).isSome := by rw [hid]; rfl
  have haid := findAttemptById_id hid
  have hE : ∃ ae, findAttemptById (emergency_submit_test aid now s).2 aid
      = some ae ∧ ae.status = .completed ∧
      ae.score = sumMarks (answersFor s aid) := by
    unfold emergency_submit_test
    simp only [hid]
    rw [if_neg hst]
    refine ⟨_, findAttemptById_update hisid (by simp [haid]), ?_, ?_⟩ <;> rfl
  have hC : ∃ ac, findAttemptById (complete_test aid uid d now2 s).2 aid
      = some ac ∧ ac.status = .completed ∧
      ac.score = sumMarks (answersFor s aid) := by
    unfold complete_test
    simp only [h]
    rw [if_neg hst]
    refine ⟨_, findAttemptById_update hisid
      (by simp [applyTabSwitches_id, haid]), ?_, ?_⟩ <;> rfl
  obtain ⟨ae, hae1, hae2, hae3⟩ := hE
  obtain ⟨ac, hac1, hac2, hac3⟩ := hC
  exact ⟨ae, ac, hae1, hac1, hae2, hac2, hae3, hac3.trans hae3.symm⟩

/-- C4 (witness): at the concrete store with one cached 2-mark answer. -/
theorem emergency_matches_normal_witness :
    ∃ ae ac,
      findAttemptById (emergency_submit_test 1 1000 raceStore).2 1 = some ae ∧
      findAttemptById (complete_test 1 7 none 1001 raceStore).2 1 = some ac ∧
      ae.status = .completed ∧ ac.status = .completed ∧
      ae.score = sumMarks (answersFor raceStore 1) ∧ ac.score = ae.score :=
  emergency_matches_normal 1 7 none 1000 1001 raceStore inProgAttempt
    (by decide) (by decide) (by decide)

/-! ## C3 — what the final score is derived from -/

theorem evalStep_total_score (asmt : Assessment) (aid : Nat)
    (existing : List (Nat × UserAnswer)) (st : EvalState)
    (p : Nat × Option String) :
    (evalStep asmt aid existing st p).total_score = st.total_score +
      (match questionLookup asmt p.1 with
       | none => 0
       | some q => if q.correct_answer.getD "" = get_option_id q.options p.2
           then q.marks else 0) := by
  unfold evalStep
  cases hq : questionLookup asmt p.1 with
  | none => simp
  | some q =>
    dsimp only
    simp [decide_eq_true_eq]

theorem evalFold_total_score (asmt : Assessment) (aid : Nat)
    (existing : List (Nat × UserAnswer)) (l : List (Nat × Option String))
    (st : EvalState) :
    (l.foldl (evalStep asmt aid existing) st).total_score =
      st.total_score + specRederivedScore asmt l := by
  induction l generalizing st with
  | nil => simp [specRederivedScore]
  | cons p ps ih =>
    rw [List.foldl_cons, ih, evalStep_total_score]
    unfold specRederivedScore
    rw [List.map_cons, List.sum_cons, add_assoc]

/-- C3 (amended): the standalone submit path re-derives the final score from
current question data for every merged answer (the spec's §4.4 recipe —
normalize, compare to `correct_answer`, `marks` if equal else 0), so the
opportunistic caches play no role there; the test-engine complete path
instead stores exactly the sum of the cached `marks_obtained` values, making
the save-time cache authoritative on that path. -/
theorem finalize_rederivation (uid : Nat) (data : SubmitAssessmentRequest)
    (now : Int) (s : Store) (att : TestAttempt) (asmt : Assessment)
    (h : findAttempt s data.attempt_id uid = some att)
    (hst : ¬ att.status = .completed)
    (ha : s.assessments.find? (fun x => decide (x.id = att.test_id)) = some asmt)
    (aid2 uid2 : Nat) (d2 : Option CompleteTestRequest) (now2 : Int)
    (s2 : Store) (att2 : TestAttempt)
    (h2 : findAttempt s2 aid2 uid2 = some att2)
    (hst2 : ¬ att2.status = .completed) :
    submitScore ((submit_assessment uid data now s).1) =
      some (specRederivedScore asmt
        (mergedAnswers (existingAnswerDict s data.attempt_id) data.answers)) ∧
    scoreOnly ((complete_test aid2 uid2 d2 now2 s2).1) =
      some (sumMarks (answersFor s2 aid2)) := by
  constructor
  · unfold submit_assessment
    simp only [h]
    rw [if_neg hst]
    simp only [ha]
    dsimp only [submitScore]
    rw [evalFold_total_score, zero_add]
  · unfold complete_test
    simp only [h2]
    rw [if_neg hst2]
    dsimp only [scoreOnly]
    rw [pyOrQ_zero]

/-- C3 (counterexample): an answer row whose stored value equals the current
correct answer but whose save-time cache is stale (`marks_obtained = 0`);
`complete_test` stores score 0 even though re-deriving from current question
data yields the question's 2 marks — the cache, not re-derivation, is
authoritative on the finalize path of `tests.py`. -/
theorem cached_score_authoritative_counterexample :
    scoreOnly ((complete_test 1 7 none 1000 staleStore).1) = some 0 ∧
    staleAnswer.answer_text = demoQuestion.correct_answer ∧
    demoQuestion.marks = 2 ∧ ¬ (0 : ℚ) = 2 := by
  refine ⟨?_, by decide, by decide, by decide⟩
  norm_num [complete_test, findAttempt, findTest, answersFor, sumMarks, scoreOnly,
    applyTabSwitches, pyOrQ, staleStore, inProgStore, inProgAttempt, staleAnswer,
    demoTest, demoQuestion, List.find?, List.filter]
  rfl

/-- C3 (witness): the amended statement at the concrete stores. -/
theorem finalize_rederivation_witness :
    submitScore ((submit_assessment 7
        { attempt_id := 3, answers := [], tab_switches := 0 } 1000 saStore).1) =
      some (specRederivedScore demoAssessment
        (mergedAnswers (existingAnswerDict saStore 3) [])) ∧
    scoreOnly ((complete_test 1 7 none 1000 raceStore).1) =
      some (sumMarks (answersFor raceStore 1)) :=
  finalize_rederivation 7 _ 1000 saStore saAttempt demoAssessment (by decide)
    (by decide) (by decide) 1 7 none 1000 raceStore inProgAttempt (by decide)
    (by decide)

/-! ## C9 — breakdown coverage -/

theorem answerDetail_qid (s : Store) (a : UserAnswer) :
    (answerDetail s a).question_id = a.question_id := by
  unfold answerDetail
  cases findQuestion s a.question_id <;> rfl

theorem questionLookup_id {asmt : Assessment} {qid : Nat} {q : AQuestion}
    (h : questionLookup asmt qid = some q) : q.id = qid := by
  have := List.find?_some h
  simpa using this

theorem evalStep_sectionsKnown (asmt : Assessment) (aid : Nat)
    (existing : List (Nat × UserAnswer)) (st : EvalState)
    (p : Nat × Option String) (hk : sectionsKnown asmt st.sections) :
    sectionsKnown asmt (evalStep asmt aid existing st p).sections := by
  unfold evalStep
  cases hq : questionLookup asmt p.1 with
  | none => exact hk
  | some q =>
    dsimp only
    have hk1 : sectionsKnown asmt
        (if st.sections.any (fun e => decide (e.1 = q.section_id)) then
          st.sections
        else st.sections ++ [(q.section_id,
          { section_id := q.section_id
            section_title :=
              match sectionLookup asmt q.section_id with
              | some sec => sec.title
              | none => "Unknown"
            total_marks := 0
            marks_obtained := 0
            questions := [] })]) := by
      split
      · exact hk
      · intro e he qr hqr
        rcases List.mem_append.mp he with he0 | he0
        · exact hk e he0 qr hqr
        · simp only [List.mem_singleton] at he0
          subst he0
          simp at hqr
    intro e he qr hqr
    rcases List.mem_map.mp he with ⟨e0, he0, rfl⟩
    by_cases hsec : e0.1 = q.section_id
    · rw [if_pos hsec] at hqr
      dsimp only at hqr
      rcases List.mem_append.mp hqr with hqr0 | hqr0
      · exact hk1 e0 he0 qr hqr0
      · simp only [List.mem_singleton] at hqr0
        subst hqr0
        dsimp only
        rw [questionLookup_id hq, hq]
        rfl
    · rw [if_neg hsec] at hqr
      exact hk1 e0 he0 qr hqr

theorem evalFold_sectionsKnown (asmt : Assessment) (aid : Nat)
    (existing : List (Nat × UserAnswer)) (l : List (Nat × Option String))
    (st : EvalState) (hk : sectionsKnown asmt st.sections) :
    sectionsKnown asmt ((l.foldl (evalStep asmt aid existing) st).sections) := by
  induction l generalizing st with
  | nil => exact hk
  | cons p ps ih =>
    rw [List.foldl_cons]
    exact ih _ (evalStep_sectionsKnown asmt aid existing st p hk)

/-- C9 (amended): the test-engine result breakdown covers every stored answer
row of the attempt — rows whose question id is unknown still appear (with
blank question text and zero max marks) — but the standalone submit breakdown
only ever contains questions known to the assessment catalog: answers whose
question id resolves to no catalog question are skipped, not listed with zero
marks. -/
theorem breakdown_coverage (aid uid : Nat) (d : Option CompleteTestRequest)
    (now : Int) (s : Store) (att : TestAttempt)
    (h : findAttempt s aid uid = some att)
    (uid2 : Nat) (data : SubmitAssessmentRequest) (now2 : Int) (s2 : Store)
    (att2 : TestAttempt) (asmt : Assessment)
    (h2 : findAttempt s2 data.attempt_id uid2 = some att2)
    (hst2 : ¬ att2.status = .completed)
    (ha : s2.assessments.find? (fun x => decide (x.id = att2.test_id)) = some asmt) :
    (∃ r, (complete_test aid uid d now s).1 = .ok r ∧
      r.answers.map (fun dtl => dtl.question_id) =
        (answersFor s aid).map (fun a => a.question_id)) ∧
    (∀ l, submitQids ((submit_assessment uid2 data now2 s2).1) = some l →
      ∀ qid ∈ l, (questionLookup asmt qid).isSome = true) := by
  constructor
  · have hmap : ((answersFor s aid).map (answerDetail s)).map
        (fun dtl => dtl.question_id) =
        (answersFor s aid).map (fun a => a.question_id) := by
      rw [List.map_map]
      exact List.map_congr_left (fun a _ => answerDetail_qid s a)
    unfold complete_test
    simp only [h]
    by_cases hcs : att.status = .completed
    · rw [if_pos hcs]
      exact ⟨_, rfl, hmap⟩
    · rw [if_neg hcs]
      exact ⟨_, rfl, hmap⟩
  · unfold submit_assessment
    simp only [h2]
    rw [if_neg hst2]
    simp only [ha]
    dsimp only [submitQids]
    intro l hl
    rw [Option.some.injEq] at hl
    subst hl
    intro qid hqid
    unfold breakdownQids at hqid
    rw [List.mem_flatten] at hqid
    obtain ⟨inner, hinner, hqin⟩ := hqid
    rw [List.map_map, List.mem_map] at hinner
    obtain ⟨e, he, rfl⟩ := hinner
    dsimp only [Function.comp] at hqin
    rw [List.mem_map] at hqin
    obtain ⟨qr, hqr, rfl⟩ := hqin
    exact evalFold_sectionsKnown asmt data.attempt_id _ _ _
      (fun e he qr hqr => by simp at he) e he qr hqr

/-- C9 (counterexample): a stored answer for unknown question id 99 is merged
into the evaluation but silently omitted from the per-section breakdown of
the standalone submit result. -/
theorem breakdown_omission_counterexample :
    submitQids ((submit_assessment 7
        { attempt_id := 3, answers := [], tab_switches := 0 }
        1000 saStrayStore).1) = some [21] ∧
    (∃ ua ∈ saStrayStore.answers, ua.question_id = 99) ∧
    questionLookup demoAssessment 99 = none ∧
    ¬ (99 ∈ [21]) := by
  refine ⟨?_, by decide, by decide, by decide⟩
  norm_num [submit_assessment, findAttempt, saStrayStore, saStore, saAttempt,
    saAnswer, strayAnswer, demoAssessment, asmtSec, asmtQ, existingAnswerDict,
    answersFor, mergedAnswers, dictInsert, evalStep, questionLookup,
    sectionLookup, get_option_id, get_option_text_s, strFalsy, idMatch,
    textMatch, blobIdOr, blobTextOr, optsCapital, upsertEvalAnswer, submitQids,
    breakdownQids, List.find?, List.filter]
  rfl

/-- C9 (witness): the amended coverage at the concrete stores. -/
theorem breakdown_coverage_witness :
    (∃ r, (complete_test 1 7 none 1000 raceStore).1 = .ok r ∧
      r.answers.map (fun dtl => dtl.question_id) =
        (answersFor raceStore 1).map (fun a => a.question_id)) ∧
    (∀ l, submitQids ((submit_assessment 7
        { attempt_id := 3, answers := [], tab_switches := 0 }
        1000 saStrayStore).1) = some l →
      ∀ qid ∈ l, (questionLookup demoAssessment qid).isSome = true) :=
  breakdown_coverage 1 7 none 1000 raceStore inProgAttempt (by decide)
    7 _ 1000 saStrayStore saAttempt demoAssessment (by decide) (by decide)
    (by decide)

/-! ## C10 — which save paths normalize -/

/-- C10 (amended): for an MCQ question with options and no pre-existing row,
`submit_answer` and `bulk_save_answers` store the value normalized via the
Answer Normalizer, but `auto_save_answer` upserts the raw submitted value
without normalization (and without scoring). -/
theorem save_normalization (aid uid : Nat) (now : Int) (s : Store)
    (att attp : TestAttempt) (q : Question) (v : Option String) (ts : Option Int)
    (h : findAttempt s aid uid = some att) (hst : ¬ att.status = .completed)
    (hprog : s.attempts.find? (fun a =>
      decide (a.id = aid ∧ a.user_id = uid ∧ a.status = .in_progress))
      = some attp)
    (hq : findQuestion s q.id = some q)
    (hmcq : q.question_type = "mcq") (hopt : q.options.isEmpty = false)
    (hnew : (answersFor s aid).find? (fun ua =>
      decide (ua.question_id = q.id)) = none) :
    (∃ row, (bulk_save_answers aid uid
        [{ question_id := q.id, answer_text := v, time_spent_seconds := ts }]
        now s).2.answers = s.answers ++ [row] ∧
      row.answer_text = normalize_to_option_id q.options v ∧
      row.question_id = q.id) ∧
    (∃ row, (submit_answer aid uid
        { question_id := q.id, answer_text := v, time_spent_seconds := ts }
        now s).2.answers = s.answers ++ [row] ∧
      row.answer_text = normalize_to_option_id q.options v ∧
      row.question_id = q.id) ∧
    (∃ row, (auto_save_answer aid uid
        { question_id := q.id, answer_text := v, time_spent_seconds := ts }
        now s).2.answers = s.answers ++ [row] ∧
      row.answer_text = v ∧ row.question_id = q.id) := by
  have hsn : saveNormalized (some q) v = normalize_to_option_id q.options v := by
    unfold saveNormalized
    dsimp only
    rw [if_pos (⟨hmcq, hopt⟩ : q.question_type = "mcq" ∧ q.options.isEmpty = false)]
  refine ⟨?_, ?_, ?_⟩
  · unfold bulk_save_answers
    simp only [h]
    rw [if_neg hst]
    dsimp only [List.foldl_cons, List.foldl_nil, List.map_cons, List.map_nil]
    rw [if_pos (List.mem_singleton.mpr rfl), hq, hnew, hsn]
    exact ⟨_, rfl, rfl, rfl⟩
  · unfold submit_answer
    simp only [hprog, hq, hnew, hsn]
    exact ⟨_, rfl, rfl, rfl⟩
  · unfold auto_save_answer
    simp only [hprog, hnew]
    exact ⟨_, rfl, rfl, rfl⟩

/-- C10 (counterexample): auto-saving the raw MCQ value `"Paris"` stores
`"Paris"` itself, not the canonical option id `"i"` the Answer Normalizer
produces. -/
theorem auto_save_raw_counterexample :
    ((auto_save_answer 1 7
        { question_id := 10, answer_text := some "Paris", time_spent_seconds := some 5 }
        500 inProgStore).2).answers =
      [{ attempt_id := 1, question_id := 10, answer_text := some "Paris"
         is_correct := none, marks_obtained := some 0
         time_spent_seconds := some 5, answered_at := some 500 }] ∧
    (findQuestion inProgStore 10).map Question.question_type = some "mcq" ∧
    normalize_to_option_id optsCapital (some "Paris") = some "i" ∧
    ¬ (some "Paris" : Option String) = some "i" := by
  decide

/-- C10 (witness): the three save paths at the concrete store. -/
theorem save_normalization_witness :
    (∃ row, (bulk_save_answers 1 7
        [{ question_id := 10, answer_text := some "Paris", time_spent_seconds := some 5 }]
        500 inProgStore).2.answers = inProgStore.answers ++ [row] ∧
      row.answer_text = normalize_to_option_id demoQuestion.options (some "Paris") ∧
      row.question_id = 10) ∧
    (∃ row, (submit_answer 1 7
        { question_id := 10, answer_text := some "Paris", time_spent_seconds := some 5 }
        500 inProgStore).2.answers = inProgStore.answers ++ [row] ∧
      row.answer_text = normalize_to_option_id demoQuestion.options (some "Paris") ∧
      row.question_id = 10) ∧
    (∃ row, (auto_save_answer 1 7
        { question_id := 10, answer_text := some "Paris", time_spent_seconds := some 5 }
        500 inProgStore).2.answers = inProgStore.answers ++ [row] ∧
      row.answer_text = some "Paris" ∧ row.question_id = 10) :=
  save_normalization 1 7 500 inProgStore inProgAttempt inProgAttempt demoQuestion
    (some "Paris") (some 5) (by decide) (by decide) (by decide) (by decide)
    (by decide) (by decide) (by decide)

/-! ## C2 — racing finalize callers -/

theorem raceInv_sysStep (aid : Nat) (base : Store) (n0 n1 : Int)
    (sys : TwoCallers) (b : Bool) (hinv : raceInv aid base sys) :
    raceInv aid base (sysStep aid n0 n1 sys b) := by
  obtain ⟨hans, ⟨a, ha, hstat⟩, hp0, hp1, hdone⟩ := hinv
  have haid := findAttemptById_id ha
  have hsome : (findAttemptById sys.store aid).isSome := by rw [ha]; rfl
  cases b with
  | false =>
    cases hpc : sys.pc0 with
    | done w r =>
      simp only [sysStep, callerStep, hpc, Bool.false_eq_true, if_false]
      refine ⟨hans, ⟨a, ha, hstat⟩, ?_, hp1, ?_⟩
      · intro w' r' hh
        cases hh
        exact hp0 w r hpc
      · intro _
        exact hdone (Or.inl (by rw [hpc]; rfl))
    | init =>
      simp only [sysStep, callerStep, hpc, Bool.false_eq_true, if_false]
      rw [ha]
      dsimp only
      by_cases hc : a.status = .completed
      · rw [if_pos hc]
        have hsc : a.score = sumMarks (answersFor base aid) := by
          rcases hstat with hstat | ⟨_, hscore⟩
          · rw [hstat] at hc; cases hc
          · exact hscore
        refine ⟨hans, ⟨a, ha, hstat⟩, ?_, hp1, ?_⟩
        · intro w' r' hh
          cases hh
          exact hsc
        · intro _
          exact ⟨a, ha, hc, hsc⟩
      · rw [if_neg hc]
        refine ⟨hans, ⟨a, ha, hstat⟩, ?_, hp1, ?_⟩
        · intro w' r' hh
          exact Pc.noConfusion hh
        · intro hd
          rcases hd with hd | hd
          · simp [pcDone] at hd
          · obtain ⟨a', ha', hc', hs'⟩ := hdone (Or.inr hd)
            rw [ha] at ha'
            cases ha'
            exact absurd hc' hc
    | armed =>
      simp only [sysStep, callerStep, hpc, Bool.false_eq_true, if_false]
      unfold finalizeWrite
      rw [ha]
      dsimp only
      have hsceq : sumMarks (answersFor sys.store aid) =
          sumMarks (answersFor base aid) := by rw [hans]
      refine ⟨hans, ⟨_, findAttemptById_update hsome (by simpa using haid),
        Or.inr ⟨rfl, hsceq⟩⟩, ?_, hp1, ?_⟩
      · intro w' r' hh
        cases hh
        exact hsceq
      · intro _
        exact ⟨_, findAttemptById_update hsome (by simpa using haid), rfl, hsceq⟩
  | true =>
    cases hpc : sys.pc1 with
    | done w r =>
      simp only [sysStep, callerStep, hpc, if_true]
      refine ⟨hans, ⟨a, ha, hstat⟩, hp0, ?_, ?_⟩
      · intro w' r' hh
        cases hh
        exact hp1 w r hpc
      · intro _
        exact hdone (Or.inr (by rw [hpc]; rfl))
    | init =>
      simp only [sysStep, callerStep, hpc, if_true]
      rw [ha]
      dsimp only
      by_cases hc : a.status = .completed
      · rw [if_pos hc]
        have hsc : a.score = sumMarks (answersFor base aid) := by
          rcases hstat with hstat | ⟨_, hscore⟩
          · rw [hstat] at hc; cases hc
          · exact hscore
        refine ⟨hans, ⟨a, ha, hstat⟩, hp0, ?_, ?_⟩
        · intro w' r' hh
          cases hh
          exact hsc
        · intro _
          exact ⟨a, ha, hc, hsc⟩
      · rw [if_neg hc]
        refine ⟨hans, ⟨a, ha, hstat⟩, hp0, ?_, ?_⟩
        · intro w' r' hh
          exact Pc.noConfusion hh
        · intro hd
          rcases hd with hd | hd
          · obtain ⟨a', ha', hc', hs'⟩ := hdone (Or.inl hd)
            rw [ha] at ha'
            cases ha'
            exact absurd hc' hc
          · simp [pcDone] at hd
    | armed =>
      simp only [sysStep, callerStep, hpc, if_true]
      unfold finalizeWrite
      rw [ha]
      dsimp only
      have hsceq : sumMarks (answersFor sys.store aid) =
          sumMarks (answersFor base aid) := by rw [hans]
      refine ⟨hans, ⟨_, findAttemptById_update hsome (by simpa using haid),
        Or.inr ⟨rfl, hsceq⟩⟩, hp0, ?_, ?_⟩
      · intro w' r' hh
        cases hh
        exact hsceq
      · intro _
        exact ⟨_, findAttemptById_update hsome (by simpa using haid), rfl, hsceq⟩

theorem raceInv_run (aid : Nat) (base : Store) (n0 n1 : Int)
    (sched : List Bool) (sys : TwoCallers) (hinv : raceInv aid base sys) :
    raceInv aid base (runSched aid n0 n1 sched sys) := by
  induction sched generalizing sys with
  | nil => exact hinv
  | cons b bs ih => exact ih _ (raceInv_sysStep aid base n0 n1 sys b hinv)

/-- C2 (amended): the finalize guard is a read-time status check, not a
conditional write — yet every interleaving of two finalize callers on an
in-progress attempt converges: whenever both callers finish, each returns the
score evaluated from the stored answers, and the attempt ends completed with
that same score. (Exactly-one-write fails; see the counterexample.) -/
theorem finalize_race_converges (aid : Nat) (n0 n1 : Int) (s : Store)
    (att : TestAttempt) (sched : List Bool)
    (h : findAttemptById s aid = some att) (hst : att.status = .in_progress)
    (h0 : pcDone (runSched aid n0 n1 sched
      { store := s, pc0 := .init, pc1 := .init }).pc0 = true)
    (h1 : pcDone (runSched aid n0 n1 sched
      { store := s, pc0 := .init, pc1 := .init }).pc1 = true) :
    pcRet (runSched aid n0 n1 sched
      { store := s, pc0 := .init, pc1 := .init }).pc0
      = sumMarks (answersFor s aid) ∧
    pcRet (runSched aid n0 n1 sched
      { store := s, pc0 := .init, pc1 := .init }).pc1
      = sumMarks (answersFor s aid) ∧
    ∃ a2, findAttemptById (runSched aid n0 n1 sched
        { store := s, pc0 := .init, pc1 := .init }).store aid = some a2 ∧
      a2.status = .completed ∧ a2.score = sumMarks (answersFor s aid) := by
  have hinv0 : raceInv aid s { store := s, pc0 := .init, pc1 := .init } := by
    refine ⟨rfl, ⟨att, h, Or.inl hst⟩, ?_, ?_, ?_⟩
    · intro w r hh
      exact Pc.noConfusion hh
    · intro w r hh
      exact Pc.noConfusion hh
    · intro hd
      rcases hd with hd | hd <;> simp [pcDone] at hd
  obtain ⟨hans, hex, hp0, hp1, hdone⟩ :=
    raceInv_run aid s n0 n1 sched _ hinv0
  refine ⟨?_, ?_, hdone (Or.inl h0)⟩
  · cases hpc : (runSched aid n0 n1 sched
        { store := s, pc0 := .init, pc1 := .init }).pc0 with
    | init => rw [hpc] at h0; simp [pcDone] at h0
    | armed => rw [hpc] at h0; simp [pcDone] at h0
    | done w r =>
      exact hp0 w r hpc
  · cases hpc : (runSched aid n0 n1 sched
        { store := s, pc0 := .init, pc1 := .init }).pc1 with
    | init => rw [hpc] at h1; simp [pcDone] at h1
    | armed => rw [hpc] at h1; simp [pcDone] at h1
    | done w r =>
      exact hp1 w r hpc

/-- C2 (counterexample): with the schedule check-check-write-write, both
callers pass the status check and both writes take effect — two writes, not
exactly one, and the second caller's write overwrites the first's
`completed_at` instead of re-reading and returning the stored values. -/
theorem finalize_race_counterexample :
    findAttemptById raceStore 1 = some inProgAttempt ∧
    inProgAttempt.status = .in_progress ∧
    pcDone (runSched 1 1000 2000 [false, true, false, true]
      { store := raceStore, pc0 := .init, pc1 := .init }).pc0 = true ∧
    pcDone (runSched 1 1000 2000 [false, true, false, true]
      { store := raceStore, pc0 := .init, pc1 := .init }).pc1 = true ∧
    wroteCount (runSched 1 1000 2000 [false, true, false, true]
      { store := raceStore, pc0 := .init, pc1 := .init }) = 2 ∧
    ¬ wroteCount (runSched 1 1000 2000 [false, true, false, true]
      { store := raceStore, pc0 := .init, pc1 := .init }) = 1 ∧
    (findAttemptById (runSched 1 1000 2000 [false, true, false, true]
        { store := raceStore, pc0 := .init, pc1 := .init }).store 1).map
      TestAttempt.completed_at = some (some 2000) := by
  decide

/-- C2 (witness): a two-caller run on the concrete store in which caller 0
writes and caller 1 then observes the completed row. -/
theorem finalize_race_converges_witness :
    pcRet (runSched 1 1000 2000 [false, false, true, true]
      { store := raceStore, pc0 := .init, pc1 := .init }).pc0
      = sumMarks (answersFor raceStore 1) ∧
    pcRet (runSched 1 1000 2000 [false, false, true, true]
      { store := raceStore, pc0 := .init, pc1 := .init }).pc1
      = sumMarks (answersFor raceStore 1) ∧
    ∃ a2, findAttemptById (runSched 1 1000 2000 [false, false, true, true]
        { store := raceStore, pc0 := .init, pc1 := .init }).store 1 = some a2 ∧
      a2.status = .completed ∧ a2.score = sumMarks (answersFor raceStore 1) :=
  finalize_race_converges 1 1000 2000 raceStore inProgAttempt
    [false, false, true, true] (by decide) (by decide) (by decide) (by decide)

end AttemptEngine
